import Mathlib

/-!
Verification of the voxel geometry engine of the `questi_event_cube`
application (source: `src/utils/voxelEngine.ts`, `src/App.tsx`, and the
URL-sharing utilities).

The TypeScript code is shallowly embedded: JavaScript arrays become `List`,
numbers become `Int` (the program only ever handles integer coordinates),
JavaScript's `undefined` produced by an out-of-range array read becomes
`Option`, and a thrown exception that a `try`/`catch` converts to `null`
becomes an `Option`/`Except` failure value.

The grid-size constants come from `src/constants.ts` (`GRID_SIZE = 5`,
`MAX_HEIGHT = 5`).  Every embedded function takes the two sizes as explicit
parameters `gs` (for `GRID_SIZE`) and `mh` (for `MAX_HEIGHT`), placed
exactly where the source mentions the corresponding constant, so that
statements about the reference configuration instantiate `gs := 5`,
`mh := 5` while dimension statements can also be examined for independent
parameter values.
-/

namespace VoxelCube

/-- `GRID_SIZE` from `src/constants.ts`. -/
def GRID_SIZE : Nat := 5

/-- `MAX_HEIGHT` from `src/constants.ts`. -/
def MAX_HEIGHT : Nat := 5

/-- The `Voxel` record of `src/types.ts` (coordinates, a coordinate-derived
string id, and an optional color). -/
structure Voxel where
  x : Int
  y : Int
  z : Int
  id : String
  color : Option String := none
deriving DecidableEq, Repr

/-- The `GridState` record of `src/types.ts`: three 2D boolean grids. -/
structure GridState where
  top : List (List Bool)
  front : List (List Bool)
  side : List (List Bool)
deriving DecidableEq, Repr

/-- The `Stats` record of `src/types.ts`. -/
structure Stats where
  count : Nat
  surfaceArea : Nat
  volume : Nat
deriving DecidableEq, Repr

/-- The template literal `x,y,z` used for voxel ids (backquote-string
of the coordinates joined by commas). -/
def idOf (x y z : Int) : String :=
  toString x ++ "," ++ toString y ++ "," ++ toString z

/-! ### Grid access helpers

JavaScript `g[r][c]` on a nested array: a negative or too-large index reads
`undefined`; we model the read as an `Option`.  `getB` additionally applies
the boolean coercion that a bare `if (g[r][c])` performs (`undefined` is
falsy).  `setCell` is the in-range assignment `g[r][c] = a`; every
assignment in the embedded code is guarded so that both indices are in
range, where `List.set` agrees with the JavaScript semantics. -/

/-- Read row `r` of a nested array (JS `g[r]`, `undefined` ↦ `none`). -/
def getRow? (g : List (List α)) (r : Int) : Option (List α) :=
  if r < 0 then none else g[r.toNat]?

/-- Read cell `(r, c)` of a nested array (JS `g[r][c]` when row `r`
exists; `undefined` ↦ `none`). -/
def getCell? (g : List (List α)) (r c : Int) : Option α :=
  (getRow? g r).bind (fun row => if c < 0 then none else row[c.toNat]?)

/-- Boolean read `g[r][c]` under JS truthiness (`undefined` is falsy). -/
def getB (g : List (List Bool)) (r c : Int) : Bool :=
  (getCell? g r c).getD false

/-- In-range assignment `g[r][c] = a`. -/
def setCell (g : List (List α)) (r c : Nat) (a : α) : List (List α) :=
  match g[r]? with
  | none => g
  | some row => g.set r (row.set c a)

/-! ### `voxelEngine.ts` -/

/-- `getVoxelSet` builds a `Set` of the strings `` `${v.x},${v.y},${v.z}` ``.
Comma-joined decimal integers encode the coordinate triple injectively, so
the key is modelled as the triple itself. -/
def getVoxelSet (voxels : List Voxel) : List (Int × Int × Int) :=
  voxels.map (fun v => (v.x, v.y, v.z))

/-- The six axis neighbors enumerated inside `calculateStats`. -/
def neighborsOf (v : Voxel) : List (Int × Int × Int) :=
  [ (v.x + 1, v.y, v.z)
  , (v.x - 1, v.y, v.z)
  , (v.x, v.y + 1, v.z)
  , (v.x, v.y - 1, v.z)
  , (v.x, v.y, v.z + 1)
  , (v.x, v.y, v.z - 1) ]

/-- `calculateStats` from `voxelEngine.ts`: count, volume (= count) and the
number of neighbor probes that miss the voxel set. -/
def calculateStats (voxels : List Voxel) : Stats :=
  let voxelSet := getVoxelSet voxels
  let surfaceArea := voxels.foldl
    (fun acc v => acc + (neighborsOf v).countP (fun n => ! voxelSet.contains n)) 0
  let count := voxels.length
  { count := count, volume := count, surfaceArea := surfaceArea }

/-- One `forEach` step of `project3DTo2D`: conditionally set one cell of
each of the three grids. -/
def projectStep (gs mh : Nat) (st : GridState) (v : Voxel) : GridState :=
  let st :=
    if 0 ≤ v.x ∧ v.x < (gs : Int) ∧ 0 ≤ v.z ∧ v.z < (gs : Int) then
      { st with top := setCell st.top v.z.toNat v.x.toNat true }
    else st
  let st :=
    if 0 ≤ v.x ∧ v.x < (gs : Int) ∧ 0 ≤ v.y ∧ v.y < (mh : Int) then
      { st with front := setCell st.front ((mh : Int) - 1 - v.y).toNat v.x.toNat true }
    else st
  if 0 ≤ v.z ∧ v.z < (gs : Int) ∧ 0 ≤ v.y ∧ v.y < (mh : Int) then
    { st with side := setCell st.side ((mh : Int) - 1 - v.y).toNat v.z.toNat true }
  else st

/-- `project3DTo2D` from `voxelEngine.ts`.  Note that the source allocates
all three grids with `Array(GRID_SIZE)` rows (`gs`), including `front` and
`side`, whose rows are then addressed by `MAX_HEIGHT - 1 - y`. -/
def project3DTo2D (gs mh : Nat) (voxels : List Voxel) : GridState :=
  let init : GridState :=
    { top := List.replicate gs (List.replicate gs false)
    , front := List.replicate gs (List.replicate gs false)
    , side := List.replicate gs (List.replicate gs false) }
  voxels.foldl (projectStep gs mh) init

/-- `getFirstActiveColumn` from `voxelEngine.ts`: the first column index
`c < gs` such that some row `r < gs` has `grid[r][c]` true, or `-1`. -/
def getFirstActiveColumn (gs : Nat) (grid : List (List Bool)) : Int :=
  match (List.range gs).find?
      (fun (c : Nat) => (List.range gs).any (fun (r : Nat) => getB grid (r : Int) (c : Int))) with
  | some c => (c : Int)
  | none => -1

/-- The `rowLoop` inside `intersect2DTo3D` computing `minZ_Top`: the first
row index `r < gs` such that some column `c < gs` has `grids.top[r][c]`
true, or `-1`. -/
def firstActiveRow (gs : Nat) (grid : List (List Bool)) : Int :=
  match (List.range gs).find?
      (fun (r : Nat) => (List.range gs).any (fun (c : Nat) => getB grid (r : Int) (c : Int))) with
  | some r => (r : Int)
  | none => -1

/-- The emission test of the triple loop of `intersect2DTo3D` for the
candidate `(x, y, z)`, given the two alignment shifts. -/
def intersectCond (gs mh : Nat) (grids : GridState) (shiftX shiftZ : Int)
    (x y z : Nat) : Bool :=
  let hasTop := getB grids.top z x
  let frontX : Int := (x : Int) + shiftX
  let sideZ : Int := (z : Int) + shiftZ
  let hasFront :=
    if 0 ≤ frontX ∧ frontX < (gs : Int) then
      getB grids.front ((mh : Int) - 1 - (y : Int)) frontX
    else false
  let hasSide :=
    if 0 ≤ sideZ ∧ sideZ < (gs : Int) then
      getB grids.side ((mh : Int) - 1 - (y : Int)) sideZ
    else false
  hasTop && hasFront && hasSide

/-- `shiftX` of `intersect2DTo3D`: `minX_Front - minX_Top` when both views
are non-empty, else `0`. -/
def shiftXOf (gs : Nat) (grids : GridState) : Int :=
  let minXTop := getFirstActiveColumn gs grids.top
  let minXFront := getFirstActiveColumn gs grids.front
  if minXTop ≠ -1 ∧ minXFront ≠ -1 then minXFront - minXTop else 0

/-- `shiftZ` of `intersect2DTo3D`: `minZ_Side - minZ_Top` when both views
are non-empty, else `0`. -/
def shiftZOf (gs : Nat) (grids : GridState) : Int :=
  let minZTop := firstActiveRow gs grids.top
  let minZSide := getFirstActiveColumn gs grids.side
  if minZTop ≠ -1 ∧ minZSide ≠ -1 then minZSide - minZTop else 0

/-- The voxel literal `{ x, y, z, id }` pushed by `intersect2DTo3D` (no
color field). -/
def voxelAt (x y z : Int) : Voxel :=
  { x := x, y := y, z := z, id := idOf x y z }

/-- `intersect2DTo3D` from `voxelEngine.ts`: smart-alignment shifts from
the first active columns/rows, then the triple loop emitting every
candidate passing the three-view test. -/
def intersect2DTo3D (gs mh : Nat) (grids : GridState) : List Voxel :=
  (List.range gs).flatMap (fun x =>
    (List.range mh).flatMap (fun y =>
      (List.range gs).filterMap (fun z =>
        if intersectCond gs mh grids (shiftXOf gs grids) (shiftZOf gs grids) x y z then
          some (voxelAt (x : Int) (y : Int) (z : Int))
        else none)))

/-- The `forEach` body of `generateTopViewNumbers`, which reads
`grid[v.z][v.x]` without a bounds check: a missing row (`v.z` outside the
allocated rows) is a JavaScript `TypeError`, modelled as `none`; a missing
column reads `undefined`, for which `undefined < v.y + 1` is false, so the
voxel is skipped. -/
def topViewLoop (g : List (List Int)) : List Voxel → Option (List (List Int))
  | [] => some g
  | v :: rest =>
    match getRow? g v.z with
    | none => none
    | some row =>
      match (if v.x < 0 then none else row[v.x.toNat]?) with
      | some cur =>
        if cur < v.y + 1 then
          topViewLoop (setCell g v.z.toNat v.x.toNat (v.y + 1)) rest
        else topViewLoop g rest
      | none => topViewLoop g rest

/-- `generateTopViewNumbers` from `voxelEngine.ts`; `none` is the thrown
`TypeError` of the unguarded row access, and a final cell value `0` is
rendered as `null` (`Option.none` in the inner grid). -/
def generateTopViewNumbers (gs : Nat) (voxels : List Voxel) :
    Option (List (List (Option Int))) :=
  let grid0 := List.replicate gs (List.replicate gs (0 : Int))
  (topViewLoop grid0 voxels).map
    (fun g => g.map (fun row => row.map (fun val => if val = 0 then none else some val)))

/-- The guarded accumulation step shared by `generateFrontViewNumbers`
(column = `v.x`) and `generateSideViewNumbers` (column = `v.z`). -/
def countStep (gs mh : Nat) (colOf : Voxel → Int) (g : List (List Int)) (v : Voxel) :
    List (List Int) :=
  let row : Int := (mh : Int) - 1 - v.y
  let col : Int := colOf v
  if 0 ≤ row ∧ row < (mh : Int) ∧ 0 ≤ col ∧ col < (gs : Int) then
    match getCell? g row col with
    | some cur => setCell g row.toNat col.toNat (cur + 1)
    | none => g
  else g

/-- `generateFrontViewNumbers` from `voxelEngine.ts`: bounds-checked
increment at row `MAX_HEIGHT - 1 - y`, column `x`; a final `0` is `null`. -/
def generateFrontViewNumbers (gs mh : Nat) (voxels : List Voxel) :
    List (List (Option Int)) :=
  let grid0 := List.replicate mh (List.replicate gs (0 : Int))
  let g := voxels.foldl (countStep gs mh (fun v => v.x)) grid0
  g.map (fun row => row.map (fun val => if val = 0 then none else some val))

/-- `generateSideViewNumbers` from `voxelEngine.ts`: bounds-checked
increment at row `MAX_HEIGHT - 1 - y`, column `z`; a final `0` is `null`. -/
def generateSideViewNumbers (gs mh : Nat) (voxels : List Voxel) :
    List (List (Option Int)) :=
  let grid0 := List.replicate mh (List.replicate gs (0 : Int))
  let g := voxels.foldl (countStep gs mh (fun v => v.z)) grid0
  g.map (fun row => row.map (fun val => if val = 0 then none else some val))

/-! ### `App.tsx`: the add-voxel handler -/

/-- The `ViewMode` union of `src/types.ts`. -/
inductive ViewMode where
  | threeDEdit
  | twoDBlueprint
deriving DecidableEq, Repr

/-- `handleAddVoxel` from `src/App.tsx`: no-op in blueprint mode, for
out-of-bounds coordinates, or on collision; otherwise appends one voxel
carrying the currently selected color. -/
def handleAddVoxel (mode : ViewMode) (selectedColor : String)
    (voxels : List Voxel) (x y z : Int) : List Voxel :=
  if mode = ViewMode.twoDBlueprint then voxels
  else if x < 0 ∨ x ≥ (GRID_SIZE : Int) ∨ z < 0 ∨ z ≥ (GRID_SIZE : Int) ∨
          y < 0 ∨ y ≥ (MAX_HEIGHT : Int) then voxels
  else if voxels.any (fun v => v.x == x && v.y == y && v.z == z) then voxels
  else voxels ++ [{ x := x, y := y, z := z, id := idOf x y z, color := some selectedColor }]

/-! ### URL sharing: `decodeVoxels`

The pipeline `decodeURIComponent(atob(encoded))` followed by `JSON.parse`
uses browser built-ins; its outcome is modelled as an `Except Unit JSJson`
argument: `Except.error` when any of those steps throws, `Except.ok j`
when the payload parses to the JSON value `j`.  Everything after the parse
is embedded from the source. -/

/-- JSON values as produced by `JSON.parse`. -/
inductive JSJson where
  | null
  | bool (b : Bool)
  | num (n : Int)
  | str (s : String)
  | arr (elems : List JSJson)
  | obj (fields : List (String × JSJson))

/-- JavaScript property access `v[k]` for non-null values: a lookup on an
object, `undefined` on every other non-null value.  (Access on `null`
throws and is handled before this function is called.) -/
def jsGet : JSJson → String → Option JSJson
  | JSJson.obj fields, k => (fields.find? (fun p => p.1 == k)).map Prod.snd
  | _, _ => none

mutual

/-- JavaScript string coercion of a value inside a template literal. -/
def jsonToString : JSJson → String
  | JSJson.null => "null"
  | JSJson.bool b => cond b "true" "false"
  | JSJson.num n => toString n
  | JSJson.str s => s
  | JSJson.arr es => String.intercalate "," (jsonListToString es)
  | JSJson.obj _ => "[object Object]"

/-- `Array.prototype.join`: `null` elements render as the empty string. -/
def jsonListToString : List JSJson → List String
  | [] => []
  | JSJson.null :: rest => "" :: jsonListToString rest
  | e :: rest => jsonToString e :: jsonListToString rest

end

/-- String coercion including `undefined`. -/
def jsToString : Option JSJson → String
  | none => "undefined"
  | some j => jsonToString j

/-- The voxel record built by `decodeVoxels` for one parsed array element:
fields are taken raw from the record (possibly `undefined`), the id is the
template literal of the raw `x`, `y`, `z` values. -/
structure DecodedVoxel where
  x : Option JSJson
  y : Option JSJson
  z : Option JSJson
  id : String
  color : Option JSJson

/-- The object literal built inside the `map` of `decodeVoxels` for a
non-null element. -/
def mkDecoded (v : JSJson) : DecodedVoxel :=
  { x := jsGet v "x"
  , y := jsGet v "y"
  , z := jsGet v "z"
  , id := jsToString (jsGet v "x") ++ "," ++ jsToString (jsGet v "y") ++ ","
      ++ jsToString (jsGet v "z")
  , color := jsGet v "c" }

/-- One element of the `map` inside `decodeVoxels`: property access on a
`null` element throws (caught by the surrounding `try`, so the whole call
returns `null`), every other element yields its record. -/
def decodeOne : JSJson → Option DecodedVoxel
  | JSJson.null => none
  | v => some (mkDecoded v)

/-- `decodeVoxels`: `null` when the decode pipeline throws, when the
payload is not an array, or when mapping over the array throws; otherwise
the list of decoded records. -/
def decodeVoxels (parsed : Except Unit JSJson) : Option (List DecodedVoxel) :=
  match parsed with
  | Except.error _ => none
  | Except.ok (JSJson.arr elems) => elems.mapM decodeOne
  | Except.ok _ => none

/-! ### Derived notions used by the statements -/

/-- The voxel list filling the whole `GRID_SIZE × MAX_HEIGHT × GRID_SIZE`
volume, enumerated in the same `x`/`y`/`z` nesting order as the
reconstruction loop. -/
def fullCube : List Voxel :=
  (List.range GRID_SIZE).flatMap (fun x =>
    (List.range MAX_HEIGHT).flatMap (fun y =>
      (List.range GRID_SIZE).map (fun z => voxelAt x y z)))

/-- A nested list with exactly `n` rows of length `m`. -/
def Shaped (n m : Nat) (g : List (List α)) : Prop :=
  g.length = n ∧ ∀ row ∈ g, row.length = m

/-- Wellformed grid triple at the reference configuration: all three grids
are `5 × 5`, exactly as the application allocates them. -/
def WF (g : GridState) : Prop :=
  Shaped 5 5 g.top ∧ Shaped 5 5 g.front ∧ Shaped 5 5 g.side

instance : ∀ g : List (List α), Decidable (Shaped n m g) := fun g => by
  unfold Shaped
  infer_instance

instance : ∀ g : GridState, Decidable (WF g) := fun g => by
  unfold WF
  infer_instance

/-- Read cell `(r, c)` at natural indices. -/
def cell (g : List (List α)) (r c : Nat) : Option α :=
  g[r]?.bind (fun row => row[c]?)

/-! ### Basic cell/shape lemmas -/

theorem getCell?_natCast (g : List (List α)) (r c : Nat) :
    getCell? g (r : Int) (c : Int) = cell g r c := by
  have h1 : ¬ ((r : Int) < 0) := by omega
  have h2 : ¬ ((c : Int) < 0) := by omega
  simp [getCell?, getRow?, cell, h1, h2]

theorem getB_natCast (g : List (List Bool)) (r c : Nat) :
    getB g (r : Int) (c : Int) = (cell g r c).getD false := by
  simp [getB, getCell?_natCast]

theorem cell_replicate (n m : Nat) (a : α) (r c : Nat) :
    cell (List.replicate n (List.replicate m a)) r c =
      if r < n ∧ c < m then some a else none := by
  simp only [cell, List.getElem?_replicate]
  by_cases hr : r < n <;> by_cases hc : c < m <;> simp [hr, hc] <;> omega

theorem shaped_replicate (n m : Nat) (a : α) :
    Shaped n m (List.replicate n (List.replicate m a)) := by
  constructor
  · simp
  · intro row hrow
    rw [List.eq_of_mem_replicate hrow]
    simp

theorem setCell_shaped {n m : Nat} {g : List (List α)} (h : Shaped n m g)
    (r c : Nat) (a : α) : Shaped n m (setCell g r c a) := by
  obtain ⟨hlen, hrow⟩ := h
  unfold setCell
  cases hg : g[r]? with
  | none => exact ⟨hlen, hrow⟩
  | some row =>
    refine ⟨by simp [hlen], ?_⟩
    intro row' hrow'
    rcases List.mem_or_eq_of_mem_set hrow' with h' | h'
    · exact hrow _ h'
    · subst h'
      rw [List.length_set]
      obtain ⟨hlt, hEl⟩ := List.getElem?_eq_some.mp hg
      exact hrow _ (hEl ▸ List.getElem_mem hlt)

theorem cell_setCell_same {g : List (List α)} {r c : Nat} {b : α} (a : α)
    (h : cell g r c = some b) :
    cell (setCell g r c a) r c = some a := by
  unfold cell at h
  cases hg : g[r]? with
  | none =>
    rw [hg] at h
    simp at h
  | some row =>
    rw [hg] at h
    have h2 : row[c]? = some b := h
    have hc : c < row.length := (List.getElem?_eq_some.mp h2).1
    have hr : r < g.length := (List.getElem?_eq_some.mp hg).1
    unfold setCell
    rw [hg]
    unfold cell
    rw [List.getElem?_set_self (by simpa using hr)]
    simp [List.getElem?_set_self hc]

theorem cell_setCell_ne {g : List (List α)} {r c r' c' : Nat}
    (h : r' ≠ r ∨ c' ≠ c) (a : α) :
    cell (setCell g r c a) r' c' = cell g r' c' := by
  unfold setCell
  cases hg : g[r]? with
  | none => rfl
  | some row =>
    unfold cell
    by_cases hr : r = r'
    · subst hr
      rcases h with h | h
      · exact absurd rfl h
      · rw [List.getElem?_set_self (by simpa using (List.getElem?_eq_some.mp hg).1),
          hg]
        simp [List.getElem?_set_ne (fun hh => h hh.symm)]
    · rw [List.getElem?_set_ne hr]

theorem cell_isSome_of_shaped {n m : Nat} {g : List (List α)}
    (h : Shaped n m g) {r c : Nat} (hr : r < n) (hc : c < m) :
    ∃ a, cell g r c = some a := by
  obtain ⟨hlen, hrow⟩ := h
  have hr' : r < g.length := hlen ▸ hr
  have hg : g[r]? = some g[r] := List.getElem?_eq_getElem hr'
  have hc' : c < g[r].length := by
    rw [hrow _ (List.getElem_mem hr')]
    exact hc
  exact ⟨g[r][c], by simp [cell, hg, List.getElem?_eq_getElem hc']⟩

theorem getB_false_of_shaped {n m : Nat} {g : List (List Bool)}
    (h : Shaped n m g) {r c : Int}
    (hout : ¬ (0 ≤ r ∧ r < (n : Int) ∧ 0 ≤ c ∧ c < (m : Int))) :
    getB g r c = false := by
  obtain ⟨hlen, hrow⟩ := h
  unfold getB getCell? getRow?
  by_cases hr0 : r < 0
  · simp [hr0]
  · rw [if_neg hr0]
    by_cases hrn : r.toNat < n
    · have hrg : r.toNat < g.length := by omega
      rw [List.getElem?_eq_getElem hrg]
      have hlenrow : g[r.toNat].length = m := hrow _ (List.getElem_mem hrg)
      by_cases hc0 : c < 0
      · simp [hc0]
      · push_neg at hout
        have hcm : (m : Int) ≤ c := by
          have := hout (by omega) (by omega) (by omega)
          omega
        have hclen : g[r.toNat].length ≤ c.toNat := by omega
        simp [hc0, List.getElem?_eq_none hclen]
    · have hnone : g.length ≤ r.toNat := by omega
      rw [List.getElem?_eq_none hnone]
      rfl

/-! ### Conditional-write folds (`project3DTo2D`) -/

/-- The guard of the `top` write of `project3DTo2D`. -/
def topGuard (gs : Nat) (v : Voxel) : Prop :=
  0 ≤ v.x ∧ v.x < (gs : Int) ∧ 0 ≤ v.z ∧ v.z < (gs : Int)

/-- The guard of the `front` write of `project3DTo2D`. -/
def frontGuard (gs mh : Nat) (v : Voxel) : Prop :=
  0 ≤ v.x ∧ v.x < (gs : Int) ∧ 0 ≤ v.y ∧ v.y < (mh : Int)

/-- The guard of the `side` write of `project3DTo2D`. -/
def sideGuard (gs mh : Nat) (v : Voxel) : Prop :=
  0 ≤ v.z ∧ v.z < (gs : Int) ∧ 0 ≤ v.y ∧ v.y < (mh : Int)

instance (gs : Nat) : DecidablePred (topGuard gs) := fun v => by
  unfold topGuard
  infer_instance

instance (gs mh : Nat) : DecidablePred (frontGuard gs mh) := fun v => by
  unfold frontGuard
  infer_instance

instance (gs mh : Nat) : DecidablePred (sideGuard gs mh) := fun v => by
  unfold sideGuard
  infer_instance

/-- One conditional cell write: the shape of each per-grid `forEach` body
of `project3DTo2D`. -/
def condSetStep (guard : Voxel → Prop) [DecidablePred guard]
    (rowOf colOf : Voxel → Nat) (g : List (List Bool)) (v : Voxel) :
    List (List Bool) :=
  if guard v then setCell g (rowOf v) (colOf v) true else g

theorem condSetStep_shaped {guard : Voxel → Prop} [DecidablePred guard]
    {rowOf colOf : Voxel → Nat} {n m : Nat} {g : List (List Bool)}
    (hg : Shaped n m g) (v : Voxel) :
    Shaped n m (condSetStep guard rowOf colOf g v) := by
  unfold condSetStep
  split
  · exact setCell_shaped hg _ _ _
  · exact hg

theorem foldl_condSetStep_shaped {guard : Voxel → Prop} [DecidablePred guard]
    {rowOf colOf : Voxel → Nat} (l : List Voxel)
    {n m : Nat} {g : List (List Bool)} (hg : Shaped n m g) :
    Shaped n m (l.foldl (condSetStep guard rowOf colOf) g) := by
  induction l generalizing g with
  | nil => exact hg
  | cons v rest ih =>
    rw [List.foldl_cons]
    exact ih (condSetStep_shaped hg v)

theorem cellB_foldl_condSetStep {guard : Voxel → Prop} [DecidablePred guard]
    {rowOf colOf : Voxel → Nat} {n m : Nat}
    (l : List Voxel) {g : List (List Bool)} (hg : Shaped n m g)
    {r c : Nat} (hr : r < n) (hc : c < m) :
    (cell (l.foldl (condSetStep guard rowOf colOf) g) r c).getD false
      = ((cell g r c).getD false ||
          l.any (fun v => decide (guard v) && (rowOf v == r) && (colOf v == c))) := by
  induction l generalizing g with
  | nil => simp
  | cons v rest ih =>
    rw [List.foldl_cons, List.any_cons]
    rw [ih (condSetStep_shaped hg v)]
    by_cases hgv : guard v
    · by_cases hhit : rowOf v = r ∧ colOf v = c
      · obtain ⟨a, ha⟩ := cell_isSome_of_shaped hg hr hc
        have hstep : cell (condSetStep guard rowOf colOf g v) r c = some true := by
          unfold condSetStep
          rw [if_pos hgv, hhit.1, hhit.2]
          exact cell_setCell_same _ ha
        simp [hstep, hgv, hhit.1, hhit.2]
      · have hstep : cell (condSetStep guard rowOf colOf g v) r c = cell g r c := by
          unfold condSetStep
          rw [if_pos hgv]
          apply cell_setCell_ne
          by_cases h1 : rowOf v = r
          · right
            intro h2
            exact hhit ⟨h1, h2.symm⟩
          · left
            intro h2
            exact h1 h2.symm
        have hmiss : (decide (guard v) && (rowOf v == r) && (colOf v == c)) = false := by
          by_cases h1 : rowOf v = r
          · have h2 : colOf v ≠ c := fun h2 => hhit ⟨h1, h2⟩
            simp [h2]
          · simp [h1]
        rw [hstep, hmiss]
        simp [Bool.or_assoc]
    · have hstep : condSetStep guard rowOf colOf g v = g := by
        unfold condSetStep
        rw [if_neg hgv]
      have hmiss : (decide (guard v) && (rowOf v == r) && (colOf v == c)) = false := by
        simp [hgv]
      rw [hstep, hmiss]
      simp [Bool.or_assoc]

theorem projectStep_top (gs mh : Nat) (st : GridState) (v : Voxel) :
    (projectStep gs mh st v).top =
      condSetStep (topGuard gs) (fun v => v.z.toNat) (fun v => v.x.toNat) st.top v := by
  unfold projectStep condSetStep topGuard
  dsimp only
  by_cases h1 : 0 ≤ v.x ∧ v.x < (gs : Int) ∧ 0 ≤ v.z ∧ v.z < (gs : Int) <;>
    by_cases h2 : 0 ≤ v.x ∧ v.x < (gs : Int) ∧ 0 ≤ v.y ∧ v.y < (mh : Int) <;>
    by_cases h3 : 0 ≤ v.z ∧ v.z < (gs : Int) ∧ 0 ≤ v.y ∧ v.y < (mh : Int) <;>
    (first | rw [if_pos h1] | rw [if_neg h1]) <;>
    (first | rw [if_pos h2] | rw [if_neg h2]) <;>
    (first | rw [if_pos h3] | rw [if_neg h3]) <;>
    (first | rw [if_pos h1] | rw [if_neg h1] | rw [if_pos h2] | rw [if_neg h2] |
      rw [if_pos h3] | rw [if_neg h3] | skip) <;> rfl

theorem projectStep_front (gs mh : Nat) (st : GridState) (v : Voxel) :
    (projectStep gs mh st v).front =
      condSetStep (frontGuard gs mh) (fun v => ((mh : Int) - 1 - v.y).toNat)
        (fun v => v.x.toNat) st.front v := by
  unfold projectStep condSetStep frontGuard
  dsimp only
  by_cases h1 : 0 ≤ v.x ∧ v.x < (gs : Int) ∧ 0 ≤ v.z ∧ v.z < (gs : Int) <;>
    by_cases h2 : 0 ≤ v.x ∧ v.x < (gs : Int) ∧ 0 ≤ v.y ∧ v.y < (mh : Int) <;>
    by_cases h3 : 0 ≤ v.z ∧ v.z < (gs : Int) ∧ 0 ≤ v.y ∧ v.y < (mh : Int) <;>
    (first | rw [if_pos h1] | rw [if_neg h1]) <;>
    (first | rw [if_pos h2] | rw [if_neg h2]) <;>
    (first | rw [if_pos h3] | rw [if_neg h3]) <;>
    (first | rw [if_pos h1] | rw [if_neg h1] | rw [if_pos h2] | rw [if_neg h2] |
      rw [if_pos h3] | rw [if_neg h3] | skip) <;> rfl

theorem projectStep_side (gs mh : Nat) (st : GridState) (v : Voxel) :
    (projectStep gs mh st v).side =
      condSetStep (sideGuard gs mh) (fun v => ((mh : Int) - 1 - v.y).toNat)
        (fun v => v.z.toNat) st.side v := by
  unfold projectStep condSetStep sideGuard
  dsimp only
  by_cases h1 : 0 ≤ v.x ∧ v.x < (gs : Int) ∧ 0 ≤ v.z ∧ v.z < (gs : Int) <;>
    by_cases h2 : 0 ≤ v.x ∧ v.x < (gs : Int) ∧ 0 ≤ v.y ∧ v.y < (mh : Int) <;>
    by_cases h3 : 0 ≤ v.z ∧ v.z < (gs : Int) ∧ 0 ≤ v.y ∧ v.y < (mh : Int) <;>
    (first | rw [if_pos h1] | rw [if_neg h1]) <;>
    (first | rw [if_pos h2] | rw [if_neg h2]) <;>
    (first | rw [if_pos h3] | rw [if_neg h3]) <;>
    (first | rw [if_pos h1] | rw [if_neg h1] | rw [if_pos h2] | rw [if_neg h2] |
      rw [if_pos h3] | rw [if_neg h3] | skip) <;> rfl

theorem foldl_projectStep_top (gs mh : Nat) (l : List Voxel) (st : GridState) :
    (l.foldl (projectStep gs mh) st).top =
      l.foldl (condSetStep (topGuard gs) (fun v => v.z.toNat) (fun v => v.x.toNat)) st.top := by
  induction l generalizing st with
  | nil => rfl
  | cons v rest ih =>
    rw [List.foldl_cons, List.foldl_cons, ih, projectStep_top]

theorem foldl_projectStep_front (gs mh : Nat) (l : List Voxel) (st : GridState) :
    (l.foldl (projectStep gs mh) st).front =
      l.foldl (condSetStep (frontGuard gs mh) (fun v => ((mh : Int) - 1 - v.y).toNat)
        (fun v => v.x.toNat)) st.front := by
  induction l generalizing st with
  | nil => rfl
  | cons v rest ih =>
    rw [List.foldl_cons, List.foldl_cons, ih, projectStep_front]

theorem foldl_projectStep_side (gs mh : Nat) (l : List Voxel) (st : GridState) :
    (l.foldl (projectStep gs mh) st).side =
      l.foldl (condSetStep (sideGuard gs mh) (fun v => ((mh : Int) - 1 - v.y).toNat)
        (fun v => v.z.toNat)) st.side := by
  induction l generalizing st with
  | nil => rfl
  | cons v rest ih =>
    rw [List.foldl_cons, List.foldl_cons, ih, projectStep_side]

/-! ### Projection characterizations -/

theorem project3DTo2D_top (gs mh : Nat) (vs : List Voxel) :
    (project3DTo2D gs mh vs).top =
      vs.foldl (condSetStep (topGuard gs) (fun v => v.z.toNat) (fun v => v.x.toNat))
        (List.replicate gs (List.replicate gs false)) := by
  unfold project3DTo2D
  exact foldl_projectStep_top gs mh vs _

theorem project3DTo2D_front (gs mh : Nat) (vs : List Voxel) :
    (project3DTo2D gs mh vs).front =
      vs.foldl (condSetStep (frontGuard gs mh) (fun v => ((mh : Int) - 1 - v.y).toNat)
        (fun v => v.x.toNat)) (List.replicate gs (List.replicate gs false)) := by
  unfold project3DTo2D
  exact foldl_projectStep_front gs mh vs _

theorem project3DTo2D_side (gs mh : Nat) (vs : List Voxel) :
    (project3DTo2D gs mh vs).side =
      vs.foldl (condSetStep (sideGuard gs mh) (fun v => ((mh : Int) - 1 - v.y).toNat)
        (fun v => v.z.toNat)) (List.replicate gs (List.replicate gs false)) := by
  unfold project3DTo2D
  exact foldl_projectStep_side gs mh vs _

theorem project3DTo2D_top_shaped (gs mh : Nat) (vs : List Voxel) :
    Shaped gs gs (project3DTo2D gs mh vs).top := by
  rw [project3DTo2D_top]
  exact foldl_condSetStep_shaped vs (shaped_replicate gs gs false)

theorem project3DTo2D_front_shaped (gs mh : Nat) (vs : List Voxel) :
    Shaped gs gs (project3DTo2D gs mh vs).front := by
  rw [project3DTo2D_front]
  exact foldl_condSetStep_shaped vs (shaped_replicate gs gs false)

theorem project3DTo2D_side_shaped (gs mh : Nat) (vs : List Voxel) :
    Shaped gs gs (project3DTo2D gs mh vs).side := by
  rw [project3DTo2D_side]
  exact foldl_condSetStep_shaped vs (shaped_replicate gs gs false)

theorem project_top_true_iff (vs : List Voxel) (z x : Int) :
    getB (project3DTo2D 5 5 vs).top z x = true ↔
      ∃ v ∈ vs, v.z = z ∧ v.x = x ∧ 0 ≤ z ∧ z < 5 ∧ 0 ≤ x ∧ x < 5 := by
  by_cases hin : 0 ≤ z ∧ z < (5 : Int) ∧ 0 ≤ x ∧ x < (5 : Int)
  · obtain ⟨hz0, hzlt, hx0, hxlt⟩ := hin
    have hz : ((z.toNat : Nat) : Int) = z := Int.toNat_of_nonneg hz0
    have hx : ((x.toNat : Nat) : Int) = x := Int.toNat_of_nonneg hx0
    rw [← hz, ← hx, getB_natCast, project3DTo2D_top]
    rw [cellB_foldl_condSetStep vs (shaped_replicate 5 5 false)
      (by omega) (by omega)]
    rw [cell_replicate]
    have hif : (z.toNat < 5 ∧ x.toNat < 5) := by omega
    rw [if_pos hif]
    simp only [Option.getD_some, Bool.false_or, List.any_eq_true]
    constructor
    · rintro ⟨v, hv, hpred⟩
      simp only [Bool.and_eq_true, decide_eq_true_eq, beq_iff_eq] at hpred
      obtain ⟨⟨hg, hr'⟩, hc'⟩ := hpred
      unfold topGuard at hg
      refine ⟨v, hv, by omega, by omega, by omega, by omega, by omega, by omega⟩
    · rintro ⟨v, hv, hvz, hvx, _⟩
      refine ⟨v, hv, ?_⟩
      simp only [Bool.and_eq_true, decide_eq_true_eq, beq_iff_eq]
      unfold topGuard
      refine ⟨⟨⟨by omega, by omega, by omega, by omega⟩, by omega⟩, by omega⟩
  · have hfalse : getB (project3DTo2D 5 5 vs).top z x = false :=
      getB_false_of_shaped (project3DTo2D_top_shaped 5 5 vs) (by exact_mod_cast hin)
    rw [hfalse]
    constructor
    · intro h
      simp at h
    · rintro ⟨v, hv, h1, h2, hz0, hzlt, hx0, hxlt⟩
      exact absurd ⟨hz0, by exact_mod_cast hzlt, hx0, by exact_mod_cast hxlt⟩ hin

theorem project_front_true_iff (vs : List Voxel) (r x : Int) :
    getB (project3DTo2D 5 5 vs).front r x = true ↔
      ∃ v ∈ vs, (5 : Int) - 1 - v.y = r ∧ v.x = x ∧ 0 ≤ v.y ∧ v.y < 5 ∧ 0 ≤ x ∧ x < 5 := by
  by_cases hin : 0 ≤ r ∧ r < (5 : Int) ∧ 0 ≤ x ∧ x < (5 : Int)
  · obtain ⟨hr0, hrlt, hx0, hxlt⟩ := hin
    have hr : ((r.toNat : Nat) : Int) = r := Int.toNat_of_nonneg hr0
    have hx : ((x.toNat : Nat) : Int) = x := Int.toNat_of_nonneg hx0
    rw [← hr, ← hx, getB_natCast, project3DTo2D_front]
    rw [cellB_foldl_condSetStep vs (shaped_replicate 5 5 false)
      (by omega) (by omega)]
    rw [cell_replicate]
    have hif : (r.toNat < 5 ∧ x.toNat < 5) := by omega
    rw [if_pos hif]
    simp only [Option.getD_some, Bool.false_or, List.any_eq_true]
    constructor
    · rintro ⟨v, hv, hpred⟩
      simp only [Bool.and_eq_true, decide_eq_true_eq, beq_iff_eq] at hpred
      obtain ⟨⟨hg, hr'⟩, hc'⟩ := hpred
      unfold frontGuard at hg
      refine ⟨v, hv, by omega, by omega, by omega, by omega, by omega, by omega⟩
    · rintro ⟨v, hv, hvy, hvx, hy0, hylt, _⟩
      refine ⟨v, hv, ?_⟩
      simp only [Bool.and_eq_true, decide_eq_true_eq, beq_iff_eq]
      unfold frontGuard
      refine ⟨⟨⟨by omega, by omega, by omega, by omega⟩, by omega⟩, by omega⟩
  · have hfalse : getB (project3DTo2D 5 5 vs).front r x = false :=
      getB_false_of_shaped (project3DTo2D_front_shaped 5 5 vs) (by exact_mod_cast hin)
    rw [hfalse]
    constructor
    · intro h
      simp at h
    · rintro ⟨v, hv, h1, h2, hy0, hylt, hx0, hxlt⟩
      refine absurd ⟨by omega, by omega, hx0, by exact_mod_cast hxlt⟩ hin
  
theorem project_side_true_iff (vs : List Voxel) (r z : Int) :
    getB (project3DTo2D 5 5 vs).side r z = true ↔
      ∃ v ∈ vs, (5 : Int) - 1 - v.y = r ∧ v.z = z ∧ 0 ≤ v.y ∧ v.y < 5 ∧ 0 ≤ z ∧ z < 5 := by
  by_cases hin : 0 ≤ r ∧ r < (5 : Int) ∧ 0 ≤ z ∧ z < (5 : Int)
  · obtain ⟨hr0, hrlt, hz0, hzlt⟩ := hin
    have hr : ((r.toNat : Nat) : Int) = r := Int.toNat_of_nonneg hr0
    have hz : ((z.toNat : Nat) : Int) = z := Int.toNat_of_nonneg hz0
    rw [← hr, ← hz, getB_natCast, project3DTo2D_side]
    rw [cellB_foldl_condSetStep vs (shaped_replicate 5 5 false)
      (by omega) (by omega)]
    rw [cell_replicate]
    have hif : (r.toNat < 5 ∧ z.toNat < 5) := by omega
    rw [if_pos hif]
    simp only [Option.getD_some, Bool.false_or, List.any_eq_true]
    constructor
    · rintro ⟨v, hv, hpred⟩
      simp only [Bool.and_eq_true, decide_eq_true_eq, beq_iff_eq] at hpred
      obtain ⟨⟨hg, hr'⟩, hc'⟩ := hpred
      unfold sideGuard at hg
      refine ⟨v, hv, by omega, by omega, by omega, by omega, by omega, by omega⟩
    · rintro ⟨v, hv, hvy, hvz, hy0, hylt, _⟩
      refine ⟨v, hv, ?_⟩
      simp only [Bool.and_eq_true, decide_eq_true_eq, beq_iff_eq]
      unfold sideGuard
      refine ⟨⟨⟨by omega, by omega, by omega, by omega⟩, by omega⟩, by omega⟩
  · have hfalse : getB (project3DTo2D 5 5 vs).side r z = false :=
      getB_false_of_shaped (project3DTo2D_side_shaped 5 5 vs) (by exact_mod_cast hin)
    rw [hfalse]
    constructor
    · intro h
      simp at h
    · rintro ⟨v, hv, h1, h2, hy0, hylt, hz0, hzlt⟩
      refine absurd ⟨by omega, by omega, hz0, by exact_mod_cast hzlt⟩ hin

/-! ### Membership in the reconstruction -/

theorem mem_intersect2DTo3D (gs mh : Nat) (g : GridState) (v : Voxel) :
    v ∈ intersect2DTo3D gs mh g ↔
      ∃ x y z : Nat, x < gs ∧ y < mh ∧ z < gs ∧
        intersectCond gs mh g (shiftXOf gs g) (shiftZOf gs g) x y z = true ∧
        v = voxelAt (x : Int) (y : Int) (z : Int) := by
  unfold intersect2DTo3D
  simp only [List.mem_flatMap, List.mem_filterMap, List.mem_range]
  constructor
  · rintro ⟨x, hx, y, hy, z, hz, hsome⟩
    split at hsome
    · refine ⟨x, y, z, hx, hy, hz, by assumption, ?_⟩
      cases hsome
      rfl
    · cases hsome
  · rintro ⟨x, y, z, hx, hy, hz, hcond, hv⟩
    refine ⟨x, hx, y, hy, z, hz, ?_⟩
    rw [if_pos hcond, hv]

/-! ### Claim theorems: C4, C8 -/

/-- Claim C4 (amended): for every voxel list `project3DTo2D` returns three
fully allocated fixed-dimension grids — at the reference configuration all
three are `GRID_SIZE` rows by `GRID_SIZE` columns, which for `front` and
`side` coincides with `MAX_HEIGHT` rows only because `GRID_SIZE =
MAX_HEIGHT = 5`; for independent parameters the `front`/`side` allocation
follows `GRID_SIZE`, not `MAX_HEIGHT` as the claim stated.  `top[z][x]` is
true iff some voxel has those `x`, `z`; `front[MAX_HEIGHT-1-y][x]` is true
iff some voxel has those `x`, `y`; `side[MAX_HEIGHT-1-y][z]` is true iff
some voxel has those `z`, `y`; out-of-range voxels are silently skipped for
the affected grid, and the empty list yields all-false grids. -/
theorem C4_projection_grids :
    (∀ vs : List Voxel,
      Shaped GRID_SIZE GRID_SIZE (project3DTo2D GRID_SIZE MAX_HEIGHT vs).top ∧
      Shaped MAX_HEIGHT GRID_SIZE (project3DTo2D GRID_SIZE MAX_HEIGHT vs).front ∧
      Shaped MAX_HEIGHT GRID_SIZE (project3DTo2D GRID_SIZE MAX_HEIGHT vs).side) ∧
    (∀ gs mh : Nat,
      (project3DTo2D gs mh []).front.length = gs ∧
      (project3DTo2D gs mh []).side.length = gs) ∧
    (∀ (vs : List Voxel) (z x : Int),
      getB (project3DTo2D GRID_SIZE MAX_HEIGHT vs).top z x = true ↔
        ∃ v ∈ vs, v.z = z ∧ v.x = x ∧
          0 ≤ z ∧ z < (GRID_SIZE : Int) ∧ 0 ≤ x ∧ x < (GRID_SIZE : Int)) ∧
    (∀ (vs : List Voxel) (y x : Int), 0 ≤ y → y < (MAX_HEIGHT : Int) →
      (getB (project3DTo2D GRID_SIZE MAX_HEIGHT vs).front ((MAX_HEIGHT : Int) - 1 - y) x = true ↔
        ∃ v ∈ vs, v.x = x ∧ v.y = y ∧ 0 ≤ x ∧ x < (GRID_SIZE : Int))) ∧
    (∀ (vs : List Voxel) (y z : Int), 0 ≤ y → y < (MAX_HEIGHT : Int) →
      (getB (project3DTo2D GRID_SIZE MAX_HEIGHT vs).side ((MAX_HEIGHT : Int) - 1 - y) z = true ↔
        ∃ v ∈ vs, v.z = z ∧ v.y = y ∧ 0 ≤ z ∧ z < (GRID_SIZE : Int))) ∧
    project3DTo2D GRID_SIZE MAX_HEIGHT [] =
      { top := List.replicate GRID_SIZE (List.replicate GRID_SIZE false)
      , front := List.replicate GRID_SIZE (List.replicate GRID_SIZE false)
      , side := List.replicate GRID_SIZE (List.replicate GRID_SIZE false) } := by
  refine ⟨?_, ?_, ?_, ?_, ?_, ?_⟩
  · intro vs
    exact ⟨project3DTo2D_top_shaped 5 5 vs, project3DTo2D_front_shaped 5 5 vs,
      project3DTo2D_side_shaped 5 5 vs⟩
  · intro gs mh
    constructor <;> simp [project3DTo2D]
  · intro vs z x
    have h := project_top_true_iff vs z x
    simp only [GRID_SIZE, MAX_HEIGHT]
    convert h using 3 <;> norm_num
  · intro vs y x hy0 hylt
    have hgs : ((GRID_SIZE : Nat) : Int) = 5 := by norm_num [GRID_SIZE]
    have h := project_front_true_iff vs ((5 : Int) - 1 - y) x
    have hcast : ((MAX_HEIGHT : Nat) : Int) = 5 := by norm_num [MAX_HEIGHT]
    rw [show (project3DTo2D GRID_SIZE MAX_HEIGHT vs) = project3DTo2D 5 5 vs from rfl,
      hcast, h]
    have hylt5 : y < (5 : Int) := by omega
    constructor
    · rintro ⟨v, hv, h1, h2, hy0', hylt', hx0, hxlt⟩
      refine ⟨v, hv, h2, by omega, hx0, ?_⟩
      omega
    · rintro ⟨v, hv, hvx, hvy, hx0, hxlt⟩
      refine ⟨v, hv, by omega, hvx, by omega, by omega, hx0, by omega⟩
  · intro vs y z hy0 hylt
    have hgs : ((GRID_SIZE : Nat) : Int) = 5 := by norm_num [GRID_SIZE]
    have h := project_side_true_iff vs ((5 : Int) - 1 - y) z
    have hcast : ((MAX_HEIGHT : Nat) : Int) = 5 := by norm_num [MAX_HEIGHT]
    rw [show (project3DTo2D GRID_SIZE MAX_HEIGHT vs) = project3DTo2D 5 5 vs from rfl,
      hcast, h]
    constructor
    · rintro ⟨v, hv, h1, h2, hy0', hylt', hz0, hzlt⟩
      refine ⟨v, hv, h2, by omega, hz0, by omega⟩
    · rintro ⟨v, hv, hvz, hvy, hz0, hzlt⟩
      refine ⟨v, hv, by omega, hvz, by omega, by omega, hz0, by omega⟩
  · rfl

/-- Witness for `C4_projection_grids`: the hypothesized `front`/`side`
characterizations applied at `y = 0`, `x = 2`, `z = 2` on the single-voxel
list. -/
theorem C4_projection_grids_witness :
    (getB (project3DTo2D GRID_SIZE MAX_HEIGHT [voxelAt 2 0 2]).front
        ((MAX_HEIGHT : Int) - 1 - 0) 2 = true ↔
      ∃ v ∈ [voxelAt 2 0 2], v.x = 2 ∧ v.y = 0 ∧
        0 ≤ (2 : Int) ∧ (2 : Int) < (GRID_SIZE : Int)) ∧
    (getB (project3DTo2D GRID_SIZE MAX_HEIGHT [voxelAt 2 0 2]).side
        ((MAX_HEIGHT : Int) - 1 - 0) 2 = true ↔
      ∃ v ∈ [voxelAt 2 0 2], v.z = 2 ∧ v.y = 0 ∧
        0 ≤ (2 : Int) ∧ (2 : Int) < (GRID_SIZE : Int)) :=
  ⟨C4_projection_grids.2.2.2.1 [voxelAt 2 0 2] 0 2 (by norm_num) (by norm_num [MAX_HEIGHT]),
   C4_projection_grids.2.2.2.2.1 [voxelAt 2 0 2] 0 2 (by norm_num) (by norm_num [MAX_HEIGHT])⟩

/-- Claim C4 counterexample: with independent parameters `GRID_SIZE = 2`
and `MAX_HEIGHT = 3`, the source allocates the `front` grid with
`Array(GRID_SIZE)` rows, so it has `2` rows where the claim requires
`MAX_HEIGHT = 3`. -/
theorem C4_front_rows_counterexample :
    (project3DTo2D 2 3 []).front.length = 2 ∧
    ¬ ((project3DTo2D 2 3 []).front.length = 3) := by
  constructor
  · rfl
  · intro h
    simp [project3DTo2D] at h

/-- Claim C8: every voxel emitted by `intersect2DTo3D` passes the `hasTop`
test, so its cell in the input `top` grid is true; consequently the `top`
projection of the reconstruction is cellwise implied by the input `top`
grid.  (No such containment is claimed for `front`/`side`, whose lookups
are shifted.) -/
theorem C8_top_containment : ∀ g : GridState, WF g →
    (∀ v ∈ intersect2DTo3D GRID_SIZE MAX_HEIGHT g, getB g.top v.z v.x = true) ∧
    (∀ z x : Int,
      getB (project3DTo2D GRID_SIZE MAX_HEIGHT
        (intersect2DTo3D GRID_SIZE MAX_HEIGHT g)).top z x = true →
      getB g.top z x = true) := by
  intro g _hwf
  have hmem : ∀ v ∈ intersect2DTo3D GRID_SIZE MAX_HEIGHT g, getB g.top v.z v.x = true := by
    intro v hv
    rw [mem_intersect2DTo3D] at hv
    obtain ⟨x, y, z, hx, hy, hz, hcond, hveq⟩ := hv
    unfold intersectCond at hcond
    simp only [Bool.and_eq_true] at hcond
    subst hveq
    exact hcond.1.1
  refine ⟨hmem, ?_⟩
  intro z x htrue
  rw [show (project3DTo2D GRID_SIZE MAX_HEIGHT
    (intersect2DTo3D GRID_SIZE MAX_HEIGHT g)) =
    project3DTo2D 5 5 (intersect2DTo3D 5 5 g) from rfl] at htrue
  rw [project_top_true_iff] at htrue
  obtain ⟨v, hv, hvz, hvx, _⟩ := htrue
  have := hmem v hv
  rw [hvz, hvx] at this
  exact this

/-- Witness for `C8_top_containment`: applied to the projection of the
single voxel `(2,0,2)` and the voxel its reconstruction emits. -/
theorem C8_top_containment_witness :
    getB (project3DTo2D 5 5 [voxelAt 2 0 2]).top 2 2 = true :=
  (C8_top_containment (project3DTo2D 5 5 [voxelAt 2 0 2]) (by decide)).1
    (voxelAt 2 0 2) (by decide)

set_option maxRecDepth 100000 in
/-- Claim C2: round trips.  Projecting the fully filled
`GRID_SIZE × MAX_HEIGHT × GRID_SIZE` cube and reconstructing returns
exactly the full cube (same coordinate list); the singleton `{(2,0,2)}`
projects to grids whose only true cells are `top[2][2]`,
`front[MAX_HEIGHT-1][2]`, `side[MAX_HEIGHT-1][2]`, and reconstructing from
those grids returns exactly `[(2,0,2)]`. -/
theorem C2_round_trips :
    (intersect2DTo3D GRID_SIZE MAX_HEIGHT
        (project3DTo2D GRID_SIZE MAX_HEIGHT fullCube)).map
        (fun v => (v.x, v.y, v.z)) =
      fullCube.map (fun v => (v.x, v.y, v.z)) ∧
    (project3DTo2D GRID_SIZE MAX_HEIGHT [voxelAt 2 0 2]).top =
      setCell (List.replicate GRID_SIZE (List.replicate GRID_SIZE false)) 2 2 true ∧
    (project3DTo2D GRID_SIZE MAX_HEIGHT [voxelAt 2 0 2]).front =
      setCell (List.replicate GRID_SIZE (List.replicate GRID_SIZE false))
        (MAX_HEIGHT - 1) 2 true ∧
    (project3DTo2D GRID_SIZE MAX_HEIGHT [voxelAt 2 0 2]).side =
      setCell (List.replicate GRID_SIZE (List.replicate GRID_SIZE false))
        (MAX_HEIGHT - 1) 2 true ∧
    intersect2DTo3D GRID_SIZE MAX_HEIGHT
        (project3DTo2D GRID_SIZE MAX_HEIGHT [voxelAt 2 0 2]) = [voxelAt 2 0 2] := by
  refine ⟨by decide, by decide, by decide, by decide, ?_⟩
  decide

/-! ### Claim C3: surface area -/

theorem foldl_add_eq_sum (f : Voxel → Nat) (l : List Voxel) :
    ∀ acc : Nat, l.foldl (fun a v => a + f v) acc = acc + (l.map f).sum := by
  induction l with
  | nil => simp
  | cons v rest ih =>
    intro acc
    simp [List.foldl_cons, ih, Nat.add_assoc]

theorem contains_getVoxelSet (vs : List Voxel) (n : Int × Int × Int) :
    (getVoxelSet vs).contains n = true ↔ ∃ w ∈ vs, (w.x, w.y, w.z) = n := by
  simp only [getVoxelSet, List.contains_iff_exists_mem_beq, List.mem_map, beq_iff_eq]
  constructor
  · rintro ⟨a, ⟨w, hw, hkey⟩, heq⟩
    exact ⟨w, hw, by rw [hkey, ← heq]⟩
  · rintro ⟨w, hw, hkey⟩
    exact ⟨(w.x, w.y, w.z), ⟨w, hw, rfl⟩, hkey.symm⟩

/-- Claim C3: for every duplicate-free voxel list, `surfaceArea` equals the
number of (voxel, direction) pairs over the 6 axis directions whose
neighbor coordinate is not occupied by any voxel in the list; a single
voxel yields 6, two face-adjacent voxels yield 10, the empty list yields
0. -/
theorem C3_surface_area :
    (∀ vs : List Voxel, (getVoxelSet vs).Nodup →
      (calculateStats vs).surfaceArea =
        (vs.map (fun v =>
          (neighborsOf v).countP
            (fun n => decide (¬ ∃ w ∈ vs, (w.x, w.y, w.z) = n)))).sum) ∧
    (calculateStats [voxelAt 0 0 0]).surfaceArea = 6 ∧
    (calculateStats [voxelAt 0 0 0, voxelAt 1 0 0]).surfaceArea = 10 ∧
    (calculateStats []).surfaceArea = 0 := by
  refine ⟨?_, by decide, by decide, by decide⟩
  intro vs _h
  have hpt : ∀ n : Int × Int × Int,
      (! (getVoxelSet vs).contains n) = decide (¬ ∃ w ∈ vs, (w.x, w.y, w.z) = n) := by
    intro n
    by_cases hex : ∃ w ∈ vs, (w.x, w.y, w.z) = n
    · rw [(contains_getVoxelSet vs n).mpr hex]
      simp [hex]
    · have hno : (getVoxelSet vs).contains n = false := by
        rw [← Bool.not_eq_true]
        intro hc
        exact hex ((contains_getVoxelSet vs n).mp hc)
      rw [hno]
      simp [hex]
  show vs.foldl
      (fun acc v => acc + (neighborsOf v).countP (fun n => ! (getVoxelSet vs).contains n))
      0 = _
  rw [foldl_add_eq_sum]
  simp only [hpt, Nat.zero_add]

/-- Witness for `C3_surface_area`: the characterization applied to the
two-adjacent-voxel list, whose key set is duplicate-free. -/
theorem C3_surface_area_witness :
    (calculateStats [voxelAt 0 0 0, voxelAt 1 0 0]).surfaceArea =
      ([voxelAt 0 0 0, voxelAt 1 0 0].map (fun v =>
        (neighborsOf v).countP
          (fun n => decide (¬ ∃ w ∈ [voxelAt 0 0 0, voxelAt 1 0 0],
            (w.x, w.y, w.z) = n)))).sum :=
  C3_surface_area.1 [voxelAt 0 0 0, voxelAt 1 0 0] (by decide)

/-! ### Claim C6: the add handler -/

/-- Claim C6: in 3D-edit mode, `handleAddVoxel` is a no-op for
out-of-bounds coordinates or an occupied cell, otherwise appends exactly
one voxel carrying the selected color; it preserves coordinate uniqueness,
and the per-coordinate count never exceeds one. -/
theorem C6_add_voxel :
    ∀ (color : String) (vs : List Voxel) (x y z : Int),
      ((¬ (0 ≤ x ∧ x < (GRID_SIZE : Int) ∧ 0 ≤ z ∧ z < (GRID_SIZE : Int) ∧
           0 ≤ y ∧ y < (MAX_HEIGHT : Int)) ∨
        (∃ v ∈ vs, v.x = x ∧ v.y = y ∧ v.z = z)) →
        handleAddVoxel ViewMode.threeDEdit color vs x y z = vs) ∧
      ((0 ≤ x ∧ x < (GRID_SIZE : Int) ∧ 0 ≤ z ∧ z < (GRID_SIZE : Int) ∧
          0 ≤ y ∧ y < (MAX_HEIGHT : Int)) →
        (¬ ∃ v ∈ vs, v.x = x ∧ v.y = y ∧ v.z = z) →
        handleAddVoxel ViewMode.threeDEdit color vs x y z =
          vs ++ [{ x := x, y := y, z := z, id := idOf x y z, color := some color }]) ∧
      ((getVoxelSet vs).Nodup →
        (getVoxelSet (handleAddVoxel ViewMode.threeDEdit color vs x y z)).Nodup) ∧
      (vs.countP (fun v => v.x == x && v.y == y && v.z == z) ≤ 1 →
        (handleAddVoxel ViewMode.threeDEdit color vs x y z).countP
          (fun v => v.x == x && v.y == y && v.z == z) ≤ 1) := by
  intro color vs x y z
  have hocc : vs.any (fun v => v.x == x && v.y == y && v.z == z) = true ↔
      ∃ v ∈ vs, v.x = x ∧ v.y = y ∧ v.z = z := by
    simp [List.any_eq_true, and_assoc]
  have hmode : ¬ (ViewMode.threeDEdit = ViewMode.twoDBlueprint) := by decide
  refine ⟨?_, ?_, ?_, ?_⟩
  · rintro (hob | hex)
    · unfold handleAddVoxel
      rw [if_neg hmode, if_pos (by omega)]
    · unfold handleAddVoxel
      rw [if_neg hmode]
      by_cases hb : x < 0 ∨ x ≥ (GRID_SIZE : Int) ∨ z < 0 ∨ z ≥ (GRID_SIZE : Int) ∨
          y < 0 ∨ y ≥ (MAX_HEIGHT : Int)
      · rw [if_pos hb]
      · rw [if_neg hb, if_pos (hocc.mpr hex)]
  · intro hib hnex
    unfold handleAddVoxel
    rw [if_neg hmode, if_neg (by omega)]
    rw [if_neg (by
      intro hc
      exact hnex (hocc.mp hc))]
  · intro hnd
    unfold handleAddVoxel
    rw [if_neg hmode]
    by_cases hb : x < 0 ∨ x ≥ (GRID_SIZE : Int) ∨ z < 0 ∨ z ≥ (GRID_SIZE : Int) ∨
        y < 0 ∨ y ≥ (MAX_HEIGHT : Int)
    · rw [if_pos hb]
      exact hnd
    · rw [if_neg hb]
      by_cases hc : vs.any (fun v => v.x == x && v.y == y && v.z == z) = true
      · rw [if_pos hc]
        exact hnd
      · rw [if_neg hc]
        have hnotin : (x, y, z) ∉ getVoxelSet vs := by
          intro hmem
          apply hc
          rw [hocc]
          simp only [getVoxelSet, List.mem_map] at hmem
          obtain ⟨w, hw, hkey⟩ := hmem
          exact ⟨w, hw, by
            have h1 := congrArg Prod.fst hkey
            have h2 := congrArg (fun p => p.2.1) hkey
            have h3 := congrArg (fun p => p.2.2) hkey
            exact ⟨h1, h2, h3⟩⟩
        simp only [getVoxelSet, List.map_append, List.map_cons, List.map_nil]
        rw [List.nodup_append]
        refine ⟨hnd, List.nodup_singleton _, ?_⟩
        intro a ha hb'
        simp only [List.mem_singleton] at hb'
        subst hb'
        exact hnotin ha
  · intro hcount
    unfold handleAddVoxel
    rw [if_neg hmode]
    by_cases hb : x < 0 ∨ x ≥ (GRID_SIZE : Int) ∨ z < 0 ∨ z ≥ (GRID_SIZE : Int) ∨
        y < 0 ∨ y ≥ (MAX_HEIGHT : Int)
    · rw [if_pos hb]
      exact hcount
    · rw [if_neg hb]
      by_cases hc : vs.any (fun v => v.x == x && v.y == y && v.z == z) = true
      · rw [if_pos hc]
        exact hcount
      · rw [if_neg hc]
        have hzero : vs.countP (fun v => v.x == x && v.y == y && v.z == z) = 0 := by
          rw [List.countP_eq_zero]
          intro v hv hp
          apply hc
          rw [List.any_eq_true]
          exact ⟨v, hv, hp⟩
        rw [List.countP_append, hzero]
        simp

/-- Witness for `C6_add_voxel`: adding `(2,0,2)` to the empty set inserts
exactly one voxel with the selected color. -/
theorem C6_add_voxel_witness :
    handleAddVoxel ViewMode.threeDEdit "#F59E0B" [] 2 0 2 =
      [] ++ [{ x := 2, y := 0, z := 2, id := idOf 2 0 2
             , color := some "#F59E0B" }] :=
  (C6_add_voxel "#F59E0B" [] 2 0 2).2.1 (by norm_num [GRID_SIZE, MAX_HEIGHT]) (by simp)

/-! ### Claims C7 and C10: decoding -/

theorem decodeOne_of_ne_null {e : JSJson} (h : e ≠ JSJson.null) :
    decodeOne e = some (mkDecoded e) := by
  cases e with
  | null => exact absurd rfl h
  | bool b => rfl
  | num n => rfl
  | str s => rfl
  | arr es => rfl
  | obj fs => rfl

theorem decodeOne_eq_some {e : JSJson} {d : DecodedVoxel}
    (h : decodeOne e = some d) : d = mkDecoded e := by
  cases e with
  | null => cases h
  | bool b => cases h; rfl
  | num n => cases h; rfl
  | str s => cases h; rfl
  | arr es => cases h; rfl
  | obj fs => cases h; rfl

theorem mapM_decodeOne_of_no_null :
    ∀ elems : List JSJson, JSJson.null ∉ elems →
      elems.mapM decodeOne = some (elems.map mkDecoded) := by
  intro elems
  induction elems with
  | nil => intro _; rfl
  | cons e rest ih =>
    intro hnn
    have he : e ≠ JSJson.null := by
      intro h
      exact hnn (by rw [h]; exact List.mem_cons_self _ _)
    have hrest : JSJson.null ∉ rest := by
      intro h
      exact hnn (List.mem_cons_of_mem _ h)
    rw [List.mapM_cons, decodeOne_of_ne_null he, ih hrest]
    rfl

theorem mapM_decodeOne_eq_none_iff :
    ∀ elems : List JSJson,
      (elems.mapM decodeOne = none ↔ JSJson.null ∈ elems) := by
  intro elems
  induction elems with
  | nil =>
    constructor
    · intro h
      exact Option.noConfusion h
    · intro h
      cases h
  | cons e rest ih =>
    rw [List.mapM_cons]
    by_cases he : e = JSJson.null
    · subst he
      simp [show decodeOne JSJson.null = none from rfl]
    · rw [decodeOne_of_ne_null he]
      cases hr : rest.mapM decodeOne with
      | none =>
        simp [ih.mp hr]
      | some l =>
        have hnr : JSJson.null ∉ rest := by
          intro h
          rw [← ih] at h
          rw [hr] at h
          cases h
        have he' : JSJson.null ≠ e := fun h => he h.symm
        simp [hr, he', hnr]

theorem mapM_decodeOne_mem {elems : List JSJson} {l : List DecodedVoxel}
    (h : elems.mapM decodeOne = some l) :
    ∀ d ∈ l, ∃ e ∈ elems, decodeOne e = some d := by
  induction elems generalizing l with
  | nil =>
    cases h
    intro d hd
    cases hd
  | cons e rest ih =>
    rw [List.mapM_cons] at h
    cases hde : decodeOne e with
    | none =>
      rw [hde] at h
      cases h
    | some d0 =>
      rw [hde] at h
      cases hr : rest.mapM decodeOne with
      | none =>
        rw [hr] at h
        cases h
      | some l0 =>
        rw [hr] at h
        have hl : l = d0 :: l0 := by
          cases h
          rfl
        subst hl
        intro d hd
        rcases List.mem_cons.mp hd with h1 | h1
        · exact ⟨e, List.mem_cons_self _ _, by rw [hde, h1]⟩
        · obtain ⟨e1, he1, hde1⟩ := ih hr d h1
          exact ⟨e1, List.mem_cons_of_mem _ he1, hde1⟩

/-- Claim C7: `decodeVoxels` is a total function into an option: a thrown
decode step yields `none`, a non-array payload yields `none`, and on
success every returned record's id is the string of its raw `x`, `y`, `z`
values joined by commas. -/
theorem C7_decode_failure_signal :
    (decodeVoxels (Except.error ()) = none) ∧
    (∀ j : JSJson, (∀ elems : List JSJson, j ≠ JSJson.arr elems) →
      decodeVoxels (Except.ok j) = none) ∧
    (∀ (p : Except Unit JSJson) (l : List DecodedVoxel),
      decodeVoxels p = some l →
      ∀ d ∈ l,
        d.id = jsToString d.x ++ "," ++ jsToString d.y ++ "," ++ jsToString d.z) := by
  refine ⟨rfl, ?_, ?_⟩
  · intro j hj
    cases j with
    | arr elems => exact absurd rfl (hj elems)
    | null => rfl
    | bool b => rfl
    | num n => rfl
    | str s => rfl
    | obj fs => rfl
  · intro p l hp d hd
    cases p with
    | error e => cases hp
    | ok j =>
      cases j with
      | arr elems =>
        have := mapM_decodeOne_mem hp d hd
        obtain ⟨e, _he, hde⟩ := this
        rw [decodeOne_eq_some hde]
        rfl
      | null => cases hp
      | bool b => cases hp
      | num n => cases hp
      | str s => cases hp
      | obj fs => cases hp

/-- Witness for `C7_decode_failure_signal`: decoding the one-element array
payload `[{x: 1, y: 2, z: 3}]` succeeds and the record's id is its raw
coordinates joined by commas. -/
theorem C7_decode_failure_signal_witness :
    (mkDecoded (JSJson.obj
        [("x", JSJson.num 1), ("y", JSJson.num 2), ("z", JSJson.num 3)])).id =
      jsToString (mkDecoded (JSJson.obj
        [("x", JSJson.num 1), ("y", JSJson.num 2), ("z", JSJson.num 3)])).x ++ "," ++
      jsToString (mkDecoded (JSJson.obj
        [("x", JSJson.num 1), ("y", JSJson.num 2), ("z", JSJson.num 3)])).y ++ "," ++
      jsToString (mkDecoded (JSJson.obj
        [("x", JSJson.num 1), ("y", JSJson.num 2), ("z", JSJson.num 3)])).z :=
  C7_decode_failure_signal.2.2
    (Except.ok (JSJson.arr [JSJson.obj
      [("x", JSJson.num 1), ("y", JSJson.num 2), ("z", JSJson.num 3)]]))
    _ rfl _ (List.mem_cons_self _ _)

/-- Claim C10 counterexample: the payload `[null]` parses to a JSON array,
yet decoding returns `none` (property access on the `null` element throws
inside the mapping and the surrounding catch returns `null`), not a
one-element list as the claim requires. -/
theorem C10_null_element_counterexample :
    decodeVoxels (Except.ok (JSJson.arr [JSJson.null])) = none ∧
    ¬ ∃ l : List DecodedVoxel,
        decodeVoxels (Except.ok (JSJson.arr [JSJson.null])) = some l ∧
        l.length = 1 := by
  refine ⟨rfl, ?_⟩
  rintro ⟨l, hl, _⟩
  rw [show decodeVoxels (Except.ok (JSJson.arr [JSJson.null])) = none from rfl] at hl
  cases hl

/-- Claim C10 (amended): for every payload parsing to a JSON array none of
whose elements is JSON `null`, decoding succeeds and returns the list of
records of the same length taking `x`, `y`, `z` and color raw from each
element (no validation), with the id joining the raw values; an array
payload decodes to `none` exactly when it contains a `null` element, and
otherwise only a non-array payload or a throwing decode step yields
`none`. -/
theorem C10_decode_raw_fields :
    (∀ elems : List JSJson, JSJson.null ∉ elems →
      decodeVoxels (Except.ok (JSJson.arr elems)) = some (elems.map mkDecoded)) ∧
    (∀ elems : List JSJson,
      (decodeVoxels (Except.ok (JSJson.arr elems)) = none ↔ JSJson.null ∈ elems)) ∧
    (∀ j : JSJson, (∀ elems : List JSJson, j ≠ JSJson.arr elems) →
      decodeVoxels (Except.ok j) = none) ∧
    (decodeVoxels (Except.error ()) = none) := by
  refine ⟨?_, ?_, ?_, rfl⟩
  · intro elems hnn
    exact mapM_decodeOne_of_no_null elems hnn
  · intro elems
    exact mapM_decodeOne_eq_none_iff elems
  · intro j hj
    cases j with
    | arr elems => exact absurd rfl (hj elems)
    | null => rfl
    | bool b => rfl
    | num n => rfl
    | str s => rfl
    | obj fs => rfl

/-- Witness for `C10_decode_raw_fields`: the unvalidated payload `[7]`
decodes to one record with `undefined` fields. -/
theorem C10_decode_raw_fields_witness :
    decodeVoxels (Except.ok (JSJson.arr [JSJson.num 7])) =
      some ([JSJson.num 7].map mkDecoded) :=
  C10_decode_raw_fields.1 [JSJson.num 7] (by simp)

/-! ### Count grids (`generateFrontViewNumbers` / `generateSideViewNumbers`) -/

theorem countStep_shaped {gs mh : Nat} {colOf : Voxel → Int} {g : List (List Int)}
    (hg : Shaped mh gs g) (v : Voxel) : Shaped mh gs (countStep gs mh colOf g v) := by
  unfold countStep
  dsimp only
  split
  · split
    · exact setCell_shaped hg _ _ _
    · exact hg
  · exact hg

theorem foldl_countStep_shaped {gs mh : Nat} {colOf : Voxel → Int} (l : List Voxel)
    {g : List (List Int)} (hg : Shaped mh gs g) :
    Shaped mh gs (l.foldl (countStep gs mh colOf) g) := by
  induction l generalizing g with
  | nil => exact hg
  | cons v rest ih =>
    rw [List.foldl_cons]
    exact ih (countStep_shaped hg v)

theorem countStep_out {gs mh : Nat} {colOf : Voxel → Int} (g : List (List Int))
    (v : Voxel) (h : ¬ (0 ≤ v.y ∧ v.y < (mh : Int) ∧ 0 ≤ colOf v ∧ colOf v < (gs : Int))) :
    countStep gs mh colOf g v = g := by
  unfold countStep
  dsimp only
  rw [if_neg (by omega)]

theorem foldl_countStep_filter (gs mh : Nat) (colOf : Voxel → Int) :
    ∀ (l : List Voxel) (g : List (List Int)),
      l.foldl (countStep gs mh colOf) g =
        (l.filter (fun v => decide (0 ≤ v.y ∧ v.y < (mh : Int) ∧
          0 ≤ colOf v ∧ colOf v < (gs : Int)))).foldl (countStep gs mh colOf) g := by
  intro l
  induction l with
  | nil => intro g; rfl
  | cons v rest ih =>
    intro g
    rw [List.foldl_cons, List.filter_cons]
    by_cases hv : 0 ≤ v.y ∧ v.y < (mh : Int) ∧ 0 ≤ colOf v ∧ colOf v < (gs : Int)
    · rw [if_pos (by simpa using hv), List.foldl_cons]
      exact ih (countStep gs mh colOf g v)
    · rw [if_neg (by simpa using hv), countStep_out g v hv]
      exact ih g

theorem cell_foldl_countStep (gs mh : Nat) (colOf : Voxel → Int) (l : List Voxel) :
    ∀ {g : List (List Int)}, Shaped mh gs g → ∀ {r c : Nat}, r < mh → c < gs →
      (cell (l.foldl (countStep gs mh colOf) g) r c).getD 0
        = (cell g r c).getD 0 +
          (l.countP (fun v =>
            decide ((mh : Int) - 1 - v.y = (r : Int) ∧ colOf v = (c : Int))) : Int) := by
  induction l with
  | nil =>
    intro g _ r c _ _
    simp
  | cons v rest ih =>
    intro g hg r c hr hc
    rw [List.foldl_cons, List.countP_cons]
    by_cases hmatch : ((mh : Int) - 1 - v.y = (r : Int) ∧ colOf v = (c : Int))
    · obtain ⟨old, hold⟩ := cell_isSome_of_shaped hg hr hc
      have hread : getCell? g ((mh : Int) - 1 - v.y) (colOf v) = some old := by
        rw [hmatch.1, hmatch.2, getCell?_natCast, hold]
      have htonat : ((mh : Int) - 1 - v.y).toNat = r ∧ (colOf v).toNat = c := by
        constructor <;> omega
      have hstep : countStep gs mh colOf g v = setCell g r c (old + 1) := by
        unfold countStep
        dsimp only
        rw [if_pos (by omega), hread, htonat.1, htonat.2]
      rw [hstep]
      have hcellnew : cell (setCell g r c (old + 1)) r c = some (old + 1) :=
        cell_setCell_same _ hold
      rw [ih (setCell_shaped hg r c (old + 1)) hr hc, hcellnew, hold]
      rw [if_pos (by simpa using hmatch)]
      simp only [Option.getD_some]
      omega
    · have hp : (decide ((mh : Int) - 1 - v.y = (r : Int) ∧ colOf v = (c : Int))) = false := by
        simpa using hmatch
      have hcell : cell (countStep gs mh colOf g v) r c = cell g r c := by
        unfold countStep
        dsimp only
        split
        · rename_i hguard
          split
          · apply cell_setCell_ne
            by_cases h1 : ((mh : Int) - 1 - v.y).toNat = r
            · right
              intro h2
              exact hmatch ⟨by omega, by omega⟩
            · left
              exact fun h2 => h1 h2.symm
          · rfl
        · rfl
      rw [ih (countStep_shaped hg v) hr hc, hcell, hp]
      simp

/-! ### The top-view loop -/

theorem topViewLoop_spec {n m : Nat} (l : List Voxel) :
    ∀ (g : List (List Int)), Shaped n m g →
      (∀ v ∈ l, 0 ≤ v.z ∧ v.z < (n : Int)) →
      ∃ g', topViewLoop g l = some g' ∧ Shaped n m g' ∧
        ∀ r c : Nat, r < n → c < m →
          (cell g' r c).getD 0 =
            ((l.filter (fun v => decide (v.z = (r : Int) ∧ v.x = (c : Int)))).map
              (fun v => v.y + 1)).foldl max ((cell g r c).getD 0) := by
  induction l with
  | nil =>
    intro g hg _
    exact ⟨g, rfl, hg, fun r c _ _ => by simp⟩
  | cons v rest ih =>
    intro g hg hin
    have hz := hin v (List.mem_cons_self _ _)
    have hzlen : v.z.toNat < g.length := by
      rw [hg.1]
      omega
    obtain ⟨row, hrow0⟩ : ∃ row, g[v.z.toNat]? = some row :=
      ⟨_, List.getElem?_eq_getElem hzlen⟩
    have hrow : getRow? g v.z = some row := by
      unfold getRow?
      rw [if_neg (by omega)]
      exact hrow0
    have hcellrow : ∀ c' : Nat, cell g v.z.toNat c' = row[c']? := by
      intro c'
      unfold cell
      rw [hrow0]
      rfl
    have hinr : ∀ w ∈ rest, 0 ≤ w.z ∧ w.z < (n : Int) :=
      fun w hw => hin w (List.mem_cons_of_mem _ hw)
    cases hcur : (if v.x < 0 then none else row[v.x.toNat]?) with
    | some cv =>
      have hvx0 : 0 ≤ v.x := by
        by_contra hneg
        rw [if_pos (by omega)] at hcur
        cases hcur
      rw [if_neg (by omega)] at hcur
      by_cases hlt : cv < v.y + 1
      · obtain ⟨g', hg', hsh', hchar⟩ :=
          ih (setCell g v.z.toNat v.x.toNat (v.y + 1)) (setCell_shaped hg _ _ _) hinr
        refine ⟨g', ?_, hsh', ?_⟩
        · show topViewLoop g (v :: rest) = some g'
          unfold topViewLoop
          rw [hrow]
          dsimp only
          rw [if_neg (by omega), hcur]
          dsimp only
          rw [if_pos hlt]
          exact hg'
        · intro r c hr hc
          rw [hchar r c hr hc, List.filter_cons]
          by_cases hpred : (v.z = (r : Int) ∧ v.x = (c : Int))
          · have hzr : v.z.toNat = r := by omega
            have hxc : v.x.toNat = c := by omega
            have hcell_g : cell g r c = some cv := by
              rw [← hzr, hcellrow c, ← hxc]
              exact hcur
            have hcell_set :
                cell (setCell g v.z.toNat v.x.toNat (v.y + 1)) r c = some (v.y + 1) := by
              rw [hzr, hxc]
              exact cell_setCell_same _ hcell_g
            rw [if_pos (by simpa using hpred)]
            simp only [List.map_cons, List.foldl_cons]
            rw [hcell_set, hcell_g]
            simp only [Option.getD_some]
            congr 1
            omega
          · have hcellEq :
                cell (setCell g v.z.toNat v.x.toNat (v.y + 1)) r c = cell g r c := by
              apply cell_setCell_ne
              by_cases h1 : r = v.z.toNat
              · right
                intro h2
                exact hpred ⟨by omega, by omega⟩
              · left
                exact h1
            rw [if_neg (by simpa using hpred), hcellEq]
      · obtain ⟨g', hg', hsh', hchar⟩ := ih g hg hinr
        refine ⟨g', ?_, hsh', ?_⟩
        · show topViewLoop g (v :: rest) = some g'
          unfold topViewLoop
          rw [hrow]
          dsimp only
          rw [if_neg (by omega), hcur]
          dsimp only
          rw [if_neg hlt]
          exact hg'
        · intro r c hr hc
          rw [hchar r c hr hc, List.filter_cons]
          by_cases hpred : (v.z = (r : Int) ∧ v.x = (c : Int))
          · have hzr : v.z.toNat = r := by omega
            have hxc : v.x.toNat = c := by omega
            have hcell_g : cell g r c = some cv := by
              rw [← hzr, hcellrow c, ← hxc]
              exact hcur
            rw [if_pos (by simpa using hpred)]
            simp only [List.map_cons, List.foldl_cons]
            rw [hcell_g]
            simp only [Option.getD_some]
            congr 1
            omega
          · rw [if_neg (by simpa using hpred)]
    | none =>
      obtain ⟨g', hg', hsh', hchar⟩ := ih g hg hinr
      refine ⟨g', ?_, hsh', ?_⟩
      · show topViewLoop g (v :: rest) = some g'
        unfold topViewLoop
        rw [hrow]
        dsimp only
        rw [hcur]
        exact hg'
      · intro r c hr hc
        rw [hchar r c hr hc, List.filter_cons]
        have hpred : ¬ (v.z = (r : Int) ∧ v.x = (c : Int)) := by
          rintro ⟨h1, h2⟩
          have hvx0 : 0 ≤ v.x := by omega
          rw [if_neg (by omega)] at hcur
          obtain ⟨a, ha⟩ := cell_isSome_of_shaped hg hr hc
          have hzr : v.z.toNat = r := by omega
          have hxc : v.x.toNat = c := by omega
          rw [← hzr, hcellrow c, ← hxc] at ha
          rw [hcur] at ha
          cases ha
        rw [if_neg (by simpa using hpred)]

/-- Claim C9: `generateTopViewNumbers` completes with a
`GRID_SIZE × GRID_SIZE` grid for in-bounds voxels, but an out-of-range `z`
makes the unguarded row access fail; `generateFrontViewNumbers` and
`generateSideViewNumbers` bounds-check and silently skip out-of-range
voxels for every input, always returning `MAX_HEIGHT × GRID_SIZE` grids. -/
theorem C9_unguarded_top_row_access :
    (∀ vs : List Voxel,
      (∀ v ∈ vs, 0 ≤ v.z ∧ v.z < (GRID_SIZE : Int) ∧
        0 ≤ v.x ∧ v.x < (GRID_SIZE : Int)) →
      ∃ g, generateTopViewNumbers GRID_SIZE vs = some g ∧
        g.length = GRID_SIZE ∧ ∀ row ∈ g, row.length = GRID_SIZE) ∧
    generateTopViewNumbers GRID_SIZE [voxelAt 0 0 (GRID_SIZE : Int)] = none ∧
    (∀ vs : List Voxel,
      generateFrontViewNumbers GRID_SIZE MAX_HEIGHT vs =
        generateFrontViewNumbers GRID_SIZE MAX_HEIGHT
          (vs.filter (fun v => decide (0 ≤ v.y ∧ v.y < (MAX_HEIGHT : Int) ∧
            0 ≤ v.x ∧ v.x < (GRID_SIZE : Int)))) ∧
      (generateFrontViewNumbers GRID_SIZE MAX_HEIGHT vs).length = MAX_HEIGHT ∧
      ∀ row ∈ generateFrontViewNumbers GRID_SIZE MAX_HEIGHT vs,
        row.length = GRID_SIZE) ∧
    (∀ vs : List Voxel,
      generateSideViewNumbers GRID_SIZE MAX_HEIGHT vs =
        generateSideViewNumbers GRID_SIZE MAX_HEIGHT
          (vs.filter (fun v => decide (0 ≤ v.y ∧ v.y < (MAX_HEIGHT : Int) ∧
            0 ≤ v.z ∧ v.z < (GRID_SIZE : Int)))) ∧
      (generateSideViewNumbers GRID_SIZE MAX_HEIGHT vs).length = MAX_HEIGHT ∧
      ∀ row ∈ generateSideViewNumbers GRID_SIZE MAX_HEIGHT vs,
        row.length = GRID_SIZE) := by
  refine ⟨?_, by decide, ?_, ?_⟩
  · intro vs hin
    obtain ⟨g', hg', hsh, _⟩ := topViewLoop_spec vs
      (List.replicate GRID_SIZE (List.replicate GRID_SIZE (0 : Int)))
      (shaped_replicate _ _ _) (fun v hv => ⟨(hin v hv).1, (hin v hv).2.1⟩)
    refine ⟨g'.map (fun row => row.map (fun val => if val = 0 then none else some val)),
      ?_, ?_, ?_⟩
    · unfold generateTopViewNumbers
      dsimp only
      rw [hg']
      rfl
    · simp [hsh.1]
    · intro row hrow
      simp only [List.mem_map] at hrow
      obtain ⟨row0, hrow0, hmap⟩ := hrow
      rw [← hmap, List.length_map]
      exact hsh.2 row0 hrow0
  · intro vs
    refine ⟨?_, ?_, ?_⟩
    · unfold generateFrontViewNumbers
      dsimp only
      rw [foldl_countStep_filter GRID_SIZE MAX_HEIGHT (fun v => v.x) vs]
    · unfold generateFrontViewNumbers
      dsimp only
      rw [List.length_map]
      exact (foldl_countStep_shaped vs (shaped_replicate _ _ _)).1
    · intro row hrow
      unfold generateFrontViewNumbers at hrow
      dsimp only at hrow
      simp only [List.mem_map] at hrow
      obtain ⟨row0, hrow0, hmap⟩ := hrow
      rw [← hmap, List.length_map]
      exact (foldl_countStep_shaped vs (shaped_replicate _ _ _)).2 row0 hrow0
  · intro vs
    refine ⟨?_, ?_, ?_⟩
    · unfold generateSideViewNumbers
      dsimp only
      rw [foldl_countStep_filter GRID_SIZE MAX_HEIGHT (fun v => v.z) vs]
    · unfold generateSideViewNumbers
      dsimp only
      rw [List.length_map]
      exact (foldl_countStep_shaped vs (shaped_replicate _ _ _)).1
    · intro row hrow
      unfold generateSideViewNumbers at hrow
      dsimp only at hrow
      simp only [List.mem_map] at hrow
      obtain ⟨row0, hrow0, hmap⟩ := hrow
      rw [← hmap, List.length_map]
      exact (foldl_countStep_shaped vs (shaped_replicate _ _ _)).2 row0 hrow0

/-! ### Claim C5: the three annotation-number grids -/

theorem cell_map (f : α → β) (g : List (List α)) (r c : Nat) :
    cell (g.map (fun row => row.map f)) r c = (cell g r c).map f := by
  unfold cell
  rw [List.getElem?_map]
  cases g[r]? with
  | none => rfl
  | some row => simp [List.getElem?_map]

theorem init_le_foldl_max (hs : List Int) :
    ∀ init : Int, init ≤ hs.foldl max init := by
  induction hs with
  | nil => intro init; exact le_refl _
  | cons h t ih =>
    intro init
    exact le_trans (le_max_left init h) (ih (max init h))

theorem mem_le_foldl_max {hs : List Int} {a : Int} (ha : a ∈ hs) :
    ∀ init : Int, a ≤ hs.foldl max init := by
  induction hs with
  | nil => cases ha
  | cons h t ih =>
    intro init
    rcases List.mem_cons.mp ha with h1 | h1
    · subst h1
      exact le_trans (le_max_right init a) (init_le_foldl_max t (max init a))
    · exact ih h1 (max init h)

/-- Claim C5: for in-bounds voxel lists, `generateTopViewNumbers` gives the
maximum `(y+1)` per `(x,z)` column or `null`; `generateFrontViewNumbers`
gives the count of voxels per `(x,y)` or `null`; `generateSideViewNumbers`
gives the count per `(z,y)` or `null`; and an accumulated value of `0` is
always reported as `null`, never as the number `0`. -/
theorem C5_view_number_grids :
    (∀ vs : List Voxel,
      (∀ v ∈ vs, 0 ≤ v.x ∧ v.x < (GRID_SIZE : Int) ∧ 0 ≤ v.y ∧ v.y < (MAX_HEIGHT : Int) ∧
        0 ≤ v.z ∧ v.z < (GRID_SIZE : Int)) →
      (∃ g, generateTopViewNumbers GRID_SIZE vs = some g ∧
        ∀ z x : Nat, z < GRID_SIZE → x < GRID_SIZE →
          cell g z x = some (
            if (vs.filter (fun v => decide (v.z = (z : Int) ∧ v.x = (x : Int)))) = []
            then none
            else some (((vs.filter (fun v => decide (v.z = (z : Int) ∧ v.x = (x : Int)))).map
              (fun v => v.y + 1)).foldl max 0))) ∧
      (∀ x y : Nat, x < GRID_SIZE → y < MAX_HEIGHT →
        cell (generateFrontViewNumbers GRID_SIZE MAX_HEIGHT vs) (MAX_HEIGHT - 1 - y) x =
          some (if vs.countP (fun v => decide (v.x = (x : Int) ∧ v.y = (y : Int))) = 0
            then none
            else some ((vs.countP (fun v => decide (v.x = (x : Int) ∧ v.y = (y : Int))) : Int)))) ∧
      (∀ z y : Nat, z < GRID_SIZE → y < MAX_HEIGHT →
        cell (generateSideViewNumbers GRID_SIZE MAX_HEIGHT vs) (MAX_HEIGHT - 1 - y) z =
          some (if vs.countP (fun v => decide (v.z = (z : Int) ∧ v.y = (y : Int))) = 0
            then none
            else some ((vs.countP (fun v => decide (v.z = (z : Int) ∧ v.y = (y : Int))) : Int))))) ∧
    (∀ (vs : List Voxel) (r c : Nat),
      cell (generateFrontViewNumbers GRID_SIZE MAX_HEIGHT vs) r c ≠ some (some 0) ∧
      cell (generateSideViewNumbers GRID_SIZE MAX_HEIGHT vs) r c ≠ some (some 0) ∧
      ∀ g, generateTopViewNumbers GRID_SIZE vs = some g → cell g r c ≠ some (some 0)) := by
  constructor
  · intro vs hin
    refine ⟨?_, ?_, ?_⟩
    · obtain ⟨g', hg', hsh, hchar⟩ := topViewLoop_spec vs
        (List.replicate GRID_SIZE (List.replicate GRID_SIZE (0 : Int)))
        (shaped_replicate _ _ _) (fun v hv => ⟨(hin v hv).2.2.2.2.1, (hin v hv).2.2.2.2.2⟩)
      refine ⟨g'.map (fun row => row.map (fun val => if val = 0 then none else some val)),
        ?_, ?_⟩
      · unfold generateTopViewNumbers
        dsimp only
        rw [hg']
        rfl
      · intro z x hz hx
        rw [cell_map]
        obtain ⟨val, hval⟩ := cell_isSome_of_shaped hsh hz hx
        have hv0 : (cell (List.replicate GRID_SIZE (List.replicate GRID_SIZE (0 : Int))) z x).getD 0
            = 0 := by
          rw [cell_replicate, if_pos ⟨hz, hx⟩]
          rfl
        have hvchar := hchar z x hz hx
        rw [hval, hv0] at hvchar
        simp only [Option.getD_some] at hvchar
        rw [hval]
        simp only [Option.map_some']
        congr 1
        by_cases hemp : vs.filter (fun v => decide (v.z = (z : Int) ∧ v.x = (x : Int))) = []
        · rw [if_pos hemp]
          rw [hemp] at hvchar
          simp only [List.map_nil, List.foldl_nil] at hvchar
          rw [hvchar]
          simp
        · rw [if_neg hemp]
          obtain ⟨w, t, hw⟩ := List.exists_cons_of_ne_nil hemp
          have hwmem : w ∈ vs.filter (fun v => decide (v.z = (z : Int) ∧ v.x = (x : Int))) := by
            rw [hw]
            exact List.mem_cons_self _ _
          have hwvs : w ∈ vs := List.mem_of_mem_filter hwmem
          have hwy : 0 ≤ w.y := (hin w hwvs).2.2.1
          have hmemh : w.y + 1 ∈ (vs.filter
              (fun v => decide (v.z = (z : Int) ∧ v.x = (x : Int)))).map (fun v => v.y + 1) :=
            List.mem_map_of_mem _ hwmem
          have hge : w.y + 1 ≤ val := by
            rw [hvchar]
            exact mem_le_foldl_max hmemh 0
          rw [if_neg (by omega), hvchar]
    · intro x y hx hy
      unfold generateFrontViewNumbers
      dsimp only
      rw [cell_map]
      have hr : MAX_HEIGHT - 1 - y < MAX_HEIGHT := by omega
      obtain ⟨val, hval⟩ := cell_isSome_of_shaped
        (@foldl_countStep_shaped GRID_SIZE MAX_HEIGHT (fun v => v.x) vs
          (List.replicate MAX_HEIGHT (List.replicate GRID_SIZE (0 : Int)))
          (shaped_replicate MAX_HEIGHT GRID_SIZE (0 : Int))) hr hx
      have hvchar := cell_foldl_countStep GRID_SIZE MAX_HEIGHT (fun v => v.x) vs
        (shaped_replicate MAX_HEIGHT GRID_SIZE (0 : Int)) hr hx
      have hv0 : (cell (List.replicate MAX_HEIGHT (List.replicate GRID_SIZE (0 : Int)))
          (MAX_HEIGHT - 1 - y) x).getD 0 = 0 := by
        rw [cell_replicate, if_pos ⟨hr, hx⟩]
        rfl
      rw [hval, hv0] at hvchar
      simp only [Option.getD_some, zero_add] at hvchar
      have hcongr : vs.countP (fun v =>
          decide ((MAX_HEIGHT : Int) - 1 - v.y = ((MAX_HEIGHT - 1 - y : Nat) : Int) ∧
            (fun v : Voxel => v.x) v = (x : Int))) =
          vs.countP (fun v => decide (v.x = (x : Int) ∧ v.y = (y : Int))) := by
        apply List.countP_congr
        intro v _
        have : ((MAX_HEIGHT : Int) - 1 - v.y = ((MAX_HEIGHT - 1 - y : Nat) : Int) ∧
            v.x = (x : Int)) ↔ (v.x = (x : Int) ∧ v.y = (y : Int)) := by
          constructor
          · rintro ⟨h1, h2⟩
            refine ⟨h2, ?_⟩
            have hcast : ((MAX_HEIGHT - 1 - y : Nat) : Int) = (MAX_HEIGHT : Int) - 1 - y := by
              omega
            omega
          · rintro ⟨h1, h2⟩
            refine ⟨?_, h1⟩
            omega
        simp [this]
      rw [hcongr] at hvchar
      rw [hval]
      simp only [Option.map_some']
      congr 1
      rw [hvchar]
      by_cases hzero : vs.countP (fun v => decide (v.x = (x : Int) ∧ v.y = (y : Int))) = 0
      · rw [if_pos hzero, hzero]
        simp
      · rw [if_neg hzero, if_neg (by exact_mod_cast hzero)]
    · intro z y hz hy
      unfold generateSideViewNumbers
      dsimp only
      rw [cell_map]
      have hr : MAX_HEIGHT - 1 - y < MAX_HEIGHT := by omega
      obtain ⟨val, hval⟩ := cell_isSome_of_shaped
        (@foldl_countStep_shaped GRID_SIZE MAX_HEIGHT (fun v => v.z) vs
          (List.replicate MAX_HEIGHT (List.replicate GRID_SIZE (0 : Int)))
          (shaped_replicate MAX_HEIGHT GRID_SIZE (0 : Int))) hr hz
      have hvchar := cell_foldl_countStep GRID_SIZE MAX_HEIGHT (fun v => v.z) vs
        (shaped_replicate MAX_HEIGHT GRID_SIZE (0 : Int)) hr hz
      have hv0 : (cell (List.replicate MAX_HEIGHT (List.replicate GRID_SIZE (0 : Int)))
          (MAX_HEIGHT - 1 - y) z).getD 0 = 0 := by
        rw [cell_replicate, if_pos ⟨hr, hz⟩]
        rfl
      rw [hval, hv0] at hvchar
      simp only [Option.getD_some, zero_add] at hvchar
      have hcongr : vs.countP (fun v =>
          decide ((MAX_HEIGHT : Int) - 1 - v.y = ((MAX_HEIGHT - 1 - y : Nat) : Int) ∧
            (fun v : Voxel => v.z) v = (z : Int))) =
          vs.countP (fun v => decide (v.z = (z : Int) ∧ v.y = (y : Int))) := by
        apply List.countP_congr
        intro v _
        have : ((MAX_HEIGHT : Int) - 1 - v.y = ((MAX_HEIGHT - 1 - y : Nat) : Int) ∧
            v.z = (z : Int)) ↔ (v.z = (z : Int) ∧ v.y = (y : Int)) := by
          constructor
          · rintro ⟨h1, h2⟩
            exact ⟨h2, by omega⟩
          · rintro ⟨h1, h2⟩
            exact ⟨by omega, h1⟩
        simp [this]
      rw [hcongr] at hvchar
      rw [hval]
      simp only [Option.map_some']
      congr 1
      rw [hvchar]
      by_cases hzero : vs.countP (fun v => decide (v.z = (z : Int) ∧ v.y = (y : Int))) = 0
      · rw [if_pos hzero, hzero]
        simp
      · rw [if_neg hzero, if_neg (by exact_mod_cast hzero)]
  · intro vs r c
    have hpostf : ∀ (gI : List (List Int)),
        cell (gI.map (fun row => row.map
          (fun val : Int => if val = 0 then none else some val))) r c ≠ some (some 0) := by
      intro gI h
      rw [cell_map] at h
      cases hcv : cell gI r c with
      | none =>
        rw [hcv] at h
        cases h
      | some val =>
        rw [hcv] at h
        simp only [Option.map_some'] at h
        by_cases hv : val = 0
        · rw [if_pos hv] at h
          cases h
        · rw [if_neg hv] at h
          cases h
          exact hv rfl
    refine ⟨?_, ?_, ?_⟩
    · unfold generateFrontViewNumbers
      dsimp only
      exact hpostf _
    · unfold generateSideViewNumbers
      dsimp only
      exact hpostf _
    · intro g hg
      unfold generateTopViewNumbers at hg
      dsimp only at hg
      cases hloop : topViewLoop
          (List.replicate GRID_SIZE (List.replicate GRID_SIZE (0 : Int))) vs with
      | none =>
        rw [hloop] at hg
        cases hg
      | some g0 =>
        rw [hloop] at hg
        simp only [Option.map_some'] at hg
        cases hg
        exact hpostf g0

/-- Witness for `C5_view_number_grids`: the front-count characterization
applied to the two-voxel stack, at cell `(x, y) = (2, 0)`. -/
theorem C5_view_number_grids_witness :
    cell (generateFrontViewNumbers GRID_SIZE MAX_HEIGHT
        [voxelAt 2 3 2, voxelAt 2 0 2]) (MAX_HEIGHT - 1 - 0) 2 =
      some (if [voxelAt 2 3 2, voxelAt 2 0 2].countP
          (fun v => decide (v.x = ((2 : Nat) : Int) ∧ v.y = ((0 : Nat) : Int))) = 0
        then none
        else some (([voxelAt 2 3 2, voxelAt 2 0 2].countP
          (fun v => decide (v.x = ((2 : Nat) : Int) ∧ v.y = ((0 : Nat) : Int))) : Int))) :=
  (C5_view_number_grids.1 [voxelAt 2 3 2, voxelAt 2 0 2] (by decide)).2.1
    2 0 (by decide) (by decide)

/-- Witness for `C9_unguarded_top_row_access`: the in-bounds singleton
completes. -/
theorem C9_unguarded_top_row_access_witness :
    (generateTopViewNumbers GRID_SIZE [voxelAt 1 0 1]).isSome = true := by
  obtain ⟨g, hg, _⟩ := C9_unguarded_top_row_access.1 [voxelAt 1 0 1] (by decide)
  rw [hg]
  rfl

/-! ### Claim C1: the reconstruction against the reference algorithm

The reference algorithm is written from the specification text: the
minima are literally "the smallest column (row) index containing any true
cell", expressed as the minimum of a finite set, with sentinel `-1` for an
empty grid, and the emission rule is the three-cell conjunction with
shifted, bounds-checked lookups. -/

theorem find?_range_eq_some_iff {p : Nat → Bool} :
    ∀ {n c : Nat}, (List.range n).find? p = some c ↔
      c < n ∧ p c = true ∧ ∀ d < c, p d = false := by
  intro n
  induction n with
  | zero =>
    intro c
    simp
  | succ n ih =>
    intro c
    rw [List.range_succ, List.find?_append]
    cases hf : (List.range n).find? p with
    | some c0 =>
      obtain ⟨hc0n, hpc0, hmin0⟩ := ih.mp hf
      simp only [Option.or_some]
      constructor
      · intro h
        cases h
        exact ⟨by omega, hpc0, hmin0⟩
      · rintro ⟨hcn, hpc, hmin⟩
        by_cases hlt : c < c0
        · rw [hmin0 c hlt] at hpc
          cases hpc
        · by_cases hgt : c0 < c
          · rw [hmin c0 hgt] at hpc0
            cases hpc0
          · have : c = c0 := by omega
            rw [this]
    | none =>
      have hnone : ∀ d < n, p d = false := by
        intro d hd
        have := List.find?_eq_none.mp hf d (List.mem_range.mpr hd)
        revert this
        cases p d <;> simp
      simp only [Option.none_or]
      by_cases hpn : p n = true
      · rw [List.find?_cons]
        rw [hpn]
        constructor
        · intro h
          cases h
          exact ⟨by omega, hpn, hnone⟩
        · rintro ⟨hcn, hpc, hmin⟩
          by_cases hcltn : c < n
          · rw [hnone c hcltn] at hpc
            cases hpc
          · have : c = n := by omega
            rw [this]
      · have hpn' : p n = false := by
          revert hpn
          cases p n <;> simp
        rw [List.find?_cons, hpn']
        simp only [List.find?_nil]
        constructor
        · intro h
          cases h
        · rintro ⟨hcn, hpc, hmin⟩
          by_cases hcltn : c < n
          · rw [hnone c hcltn] at hpc
            cases hpc
          · have : c = n := by omega
            rw [this] at hpc
            rw [hpc] at hpn'
            cases hpn'

/-- Reference: the set of column indices of the grid containing a true
cell. -/
def specActiveColumns (g : List (List Bool)) : Finset Nat :=
  (Finset.range GRID_SIZE).filter (fun c => ∃ row ∈ g, row.getD c false = true)

/-- Reference: the smallest column index containing any true cell,
sentinel `-1` when there is none. -/
def specMinColumn (g : List (List Bool)) : Int :=
  if h : (specActiveColumns g).Nonempty then ((specActiveColumns g).min' h : Int) else -1

/-- Reference: the set of row indices of the grid containing a true
cell. -/
def specActiveRows (g : List (List Bool)) : Finset Nat :=
  (Finset.range GRID_SIZE).filter (fun r => (g.getD r []).any (fun b => b) = true)

/-- Reference: the smallest row index containing any true cell, sentinel
`-1` when there is none. -/
def specMinRow (g : List (List Bool)) : Int :=
  if h : (specActiveRows g).Nonempty then ((specActiveRows g).min' h : Int) else -1

theorem mem_specActiveColumns {g : List (List Bool)} {c : Nat} :
    c ∈ specActiveColumns g ↔
      c < GRID_SIZE ∧ ∃ row ∈ g, row.getD c false = true := by
  unfold specActiveColumns
  rw [Finset.mem_filter, Finset.mem_range]

theorem mem_specActiveRows {g : List (List Bool)} {r : Nat} :
    r ∈ specActiveRows g ↔
      r < GRID_SIZE ∧ (g.getD r []).any (fun b => b) = true := by
  unfold specActiveRows
  rw [Finset.mem_filter, Finset.mem_range]

/-- Reference: `shiftX = minX_front - minX_top` when both exist, else 0. -/
def specShiftX (g : GridState) : Int :=
  if specMinColumn g.top ≠ -1 ∧ specMinColumn g.front ≠ -1 then
    specMinColumn g.front - specMinColumn g.top
  else 0

/-- Reference: `shiftZ = minZ_side - minZ_top` when both exist, else 0. -/
def specShiftZ (g : GridState) : Int :=
  if specMinRow g.top ≠ -1 ∧ specMinColumn g.side ≠ -1 then
    specMinColumn g.side - specMinRow g.top
  else 0

/-- Reference: the emission rule — a voxel appears at `(x, y, z)` exactly
when `top[z][x]` is true, `front[MAX_HEIGHT-1-y][x+shiftX]` is true
(with the lookup false when `x+shiftX` is out of `[0, GRID_SIZE)`), and
`side[MAX_HEIGHT-1-y][z+shiftZ]` is true (same bounds rule). -/
def specEmit (g : GridState) (x y z : Nat) : Prop :=
  getB g.top (z : Int) (x : Int) = true ∧
  (0 ≤ (x : Int) + specShiftX g ∧ (x : Int) + specShiftX g < (GRID_SIZE : Int) ∧
    getB g.front ((MAX_HEIGHT : Int) - 1 - (y : Int)) ((x : Int) + specShiftX g) = true) ∧
  (0 ≤ (z : Int) + specShiftZ g ∧ (z : Int) + specShiftZ g < (GRID_SIZE : Int) ∧
    getB g.side ((MAX_HEIGHT : Int) - 1 - (y : Int)) ((z : Int) + specShiftZ g) = true)

theorem codeColActive_iff {g : List (List Bool)} (hsh : Shaped 5 5 g) (c : Nat) :
    ((List.range 5).any (fun r => getB g (r : Int) (c : Int)) = true) ↔
      ∃ row ∈ g, row.getD c false = true := by
  rw [List.any_eq_true]
  constructor
  · rintro ⟨r, hr, hget⟩
    rw [getB_natCast] at hget
    have hcell : cell g r c = some true := by
      cases hcv : cell g r c with
      | none =>
        rw [hcv] at hget
        cases hget
      | some b =>
        rw [hcv] at hget
        simp only [Option.getD_some] at hget
        rw [hget]
    unfold cell at hcell
    cases hrow : g[r]? with
    | none =>
      rw [hrow] at hcell
      cases hcell
    | some row =>
      rw [hrow] at hcell
      refine ⟨row, ?_, ?_⟩
      · obtain ⟨hlt, hel⟩ := List.getElem?_eq_some.mp hrow
        exact hel ▸ List.getElem_mem hlt
      · rw [List.getD_eq_getElem?_getD]
        have h2 : row[c]? = some true := hcell
        rw [h2]
        rfl
  · rintro ⟨row, hrow, hget⟩
    obtain ⟨r, hrlen, hel⟩ := List.mem_iff_getElem.mp hrow
    refine ⟨r, List.mem_range.mpr (by have h5 := hsh.1; omega), ?_⟩
    rw [getB_natCast]
    rw [List.getD_eq_getElem?_getD] at hget
    have hc : row[c]? = some true := by
      cases hcv : row[c]? with
      | none =>
        rw [hcv] at hget
        cases hget
      | some b =>
        rw [hcv] at hget
        simp only [Option.getD_some] at hget
        rw [hget]
    have hcell : cell g r c = some true := by
      unfold cell
      rw [List.getElem?_eq_getElem hrlen, hel]
      exact hc
    rw [hcell]
    rfl

theorem codeRowActive_iff {g : List (List Bool)} (hsh : Shaped 5 5 g) (r : Nat)
    (hr : r < 5) :
    ((List.range 5).any (fun c => getB g (r : Int) (c : Int)) = true) ↔
      ((g.getD r []).any (fun b => b) = true) := by
  have hrlen : r < g.length := by have h5 := hsh.1; omega
  have hrowD : g.getD r [] = g[r] := by
    rw [List.getD_eq_getElem?_getD, List.getElem?_eq_getElem hrlen]
    rfl
  have hlenrow : g[r].length = 5 := hsh.2 _ (List.getElem_mem hrlen)
  rw [hrowD, List.any_eq_true, List.any_eq_true]
  constructor
  · rintro ⟨c, hc, hget⟩
    rw [getB_natCast] at hget
    have hcell : cell g r c = some true := by
      cases hcv : cell g r c with
      | none =>
        rw [hcv] at hget
        cases hget
      | some b =>
        rw [hcv] at hget
        simp only [Option.getD_some] at hget
        rw [hget]
    unfold cell at hcell
    rw [List.getElem?_eq_getElem hrlen] at hcell
    have h2 : g[r][c]? = some true := hcell
    refine ⟨true, ?_, rfl⟩
    obtain ⟨hlt, hel⟩ := List.getElem?_eq_some.mp h2
    exact hel ▸ List.getElem_mem hlt
  · rintro ⟨b, hb, hbtrue⟩
    have hb' : b = true := by
      revert hbtrue
      cases b <;> simp
    subst hb'
    obtain ⟨c, hclen, hel⟩ := List.mem_iff_getElem.mp hb
    refine ⟨c, List.mem_range.mpr (by omega), ?_⟩
    rw [getB_natCast]
    have hcell : cell g r c = some true := by
      unfold cell
      rw [List.getElem?_eq_getElem hrlen]
      have : g[r][c]? = some true := by
        rw [List.getElem?_eq_getElem hclen, hel]
      exact this
    rw [hcell]
    rfl

theorem getFirstActiveColumn_eq_spec {g : List (List Bool)} (hsh : Shaped 5 5 g) :
    getFirstActiveColumn 5 g = specMinColumn g := by
  unfold getFirstActiveColumn specMinColumn
  cases hf : (List.range 5).find?
      (fun (c : Nat) => (List.range 5).any (fun (r : Nat) => getB g (r : Int) (c : Int))) with
  | some c =>
    obtain ⟨hcn, hpc, hmin⟩ := find?_range_eq_some_iff.mp hf
    have hcmem : c ∈ specActiveColumns g :=
      mem_specActiveColumns.mpr ⟨hcn, (codeColActive_iff hsh c).mp hpc⟩
    have hne : (specActiveColumns g).Nonempty := ⟨c, hcmem⟩
    rw [dif_pos hne]
    have hminmem := Finset.min'_mem (specActiveColumns g) hne
    have hminle := Finset.min'_le (specActiveColumns g) c hcmem
    have hminactive : (List.range 5).any
        (fun r => getB g (r : Int) (((specActiveColumns g).min' hne : Nat) : Int)) = true := by
      apply (codeColActive_iff hsh _).mpr
      exact (mem_specActiveColumns.mp hminmem).2
    have hcle : c ≤ (specActiveColumns g).min' hne := by
      by_contra hlt
      rw [hmin _ (by omega)] at hminactive
      cases hminactive
    have : c = (specActiveColumns g).min' hne := by omega
    rw [this]
  | none =>
    have hforall := List.find?_eq_none.mp hf
    have hempty : ¬ (specActiveColumns g).Nonempty := by
      rintro ⟨c, hc⟩
      rw [mem_specActiveColumns] at hc
      have hactive : (List.range 5).any
          (fun r => getB g (r : Int) ((c : Nat) : Int)) = true :=
        (codeColActive_iff hsh c).mpr hc.2
      have := hforall c (List.mem_range.mpr hc.1)
      rw [hactive] at this
      simp at this
    rw [dif_neg hempty]

theorem firstActiveRow_eq_spec {g : List (List Bool)} (hsh : Shaped 5 5 g) :
    firstActiveRow 5 g = specMinRow g := by
  unfold firstActiveRow specMinRow
  cases hf : (List.range 5).find?
      (fun (r : Nat) => (List.range 5).any (fun (c : Nat) => getB g (r : Int) (c : Int))) with
  | some r =>
    obtain ⟨hrn, hpr, hmin⟩ := find?_range_eq_some_iff.mp hf
    have hrmem : r ∈ specActiveRows g :=
      mem_specActiveRows.mpr ⟨hrn, (codeRowActive_iff hsh r hrn).mp hpr⟩
    have hne : (specActiveRows g).Nonempty := ⟨r, hrmem⟩
    rw [dif_pos hne]
    have hminmem := Finset.min'_mem (specActiveRows g) hne
    have hminle := Finset.min'_le (specActiveRows g) r hrmem
    have hminlt : (specActiveRows g).min' hne < 5 :=
      (mem_specActiveRows.mp hminmem).1
    have hminactive : (List.range 5).any
        (fun c => getB g (((specActiveRows g).min' hne : Nat) : Int) (c : Int)) = true := by
      apply (codeRowActive_iff hsh _ hminlt).mpr
      exact (mem_specActiveRows.mp hminmem).2
    have hrle : r ≤ (specActiveRows g).min' hne := by
      by_contra hlt
      rw [hmin _ (by omega)] at hminactive
      cases hminactive
    have : r = (specActiveRows g).min' hne := by omega
    rw [this]
  | none =>
    have hforall := List.find?_eq_none.mp hf
    have hempty : ¬ (specActiveRows g).Nonempty := by
      rintro ⟨r, hr⟩
      rw [mem_specActiveRows] at hr
      have hactive : (List.range 5).any
          (fun c => getB g ((r : Nat) : Int) (c : Int)) = true :=
        (codeRowActive_iff hsh r hr.1).mpr hr.2
      have := hforall r (List.mem_range.mpr hr.1)
      rw [hactive] at this
      simp at this
    rw [dif_neg hempty]

theorem shiftXOf_eq_spec {g : GridState} (hwf : WF g) :
    shiftXOf 5 g = specShiftX g := by
  unfold shiftXOf specShiftX
  dsimp only
  rw [getFirstActiveColumn_eq_spec hwf.1, getFirstActiveColumn_eq_spec hwf.2.1]

theorem shiftZOf_eq_spec {g : GridState} (hwf : WF g) :
    shiftZOf 5 g = specShiftZ g := by
  unfold shiftZOf specShiftZ
  dsimp only
  rw [firstActiveRow_eq_spec hwf.1, getFirstActiveColumn_eq_spec hwf.2.2]

theorem intersectCond_true_iff (gs mh : Nat) (g : GridState) (sx sz : Int)
    (x y z : Nat) :
    intersectCond gs mh g sx sz x y z = true ↔
      getB g.top (z : Int) (x : Int) = true ∧
      (0 ≤ (x : Int) + sx ∧ (x : Int) + sx < (gs : Int) ∧
        getB g.front ((mh : Int) - 1 - (y : Int)) ((x : Int) + sx) = true) ∧
      (0 ≤ (z : Int) + sz ∧ (z : Int) + sz < (gs : Int) ∧
        getB g.side ((mh : Int) - 1 - (y : Int)) ((z : Int) + sz) = true) := by
  unfold intersectCond
  dsimp only
  by_cases h1 : 0 ≤ (x : Int) + sx ∧ (x : Int) + sx < (gs : Int)
  · rw [if_pos h1]
    by_cases h2 : 0 ≤ (z : Int) + sz ∧ (z : Int) + sz < (gs : Int)
    · rw [if_pos h2]
      simp only [Bool.and_eq_true]
      constructor
      · rintro ⟨⟨ht, hf⟩, hs⟩
        exact ⟨ht, ⟨h1.1, h1.2, hf⟩, ⟨h2.1, h2.2, hs⟩⟩
      · rintro ⟨ht, ⟨_, _, hf⟩, ⟨_, _, hs⟩⟩
        exact ⟨⟨ht, hf⟩, hs⟩
    · rw [if_neg h2]
      simp only [Bool.and_false, Bool.false_eq_true, false_iff]
      rintro ⟨_, _, ⟨hz0, hzlt, _⟩⟩
      exact h2 ⟨hz0, hzlt⟩
  · rw [if_neg h1]
    simp only [Bool.false_and, Bool.and_false, Bool.false_eq_true, false_iff]
    rintro ⟨_, ⟨hx0, hxlt, _⟩, _⟩
    exact h1 ⟨hx0, hxlt⟩

theorem exists_emit_iff (gs mh : Nat) (g : GridState) (x y z : Nat)
    (hx : x < gs) (hy : y < mh) (hz : z < gs) :
    (∃ v ∈ intersect2DTo3D gs mh g,
        v.x = (x : Int) ∧ v.y = (y : Int) ∧ v.z = (z : Int)) ↔
      intersectCond gs mh g (shiftXOf gs g) (shiftZOf gs g) x y z = true := by
  constructor
  · rintro ⟨v, hv, hvx, hvy, hvz⟩
    rw [mem_intersect2DTo3D] at hv
    obtain ⟨x', y', z', hx', hy', hz', hcond, hveq⟩ := hv
    subst hveq
    simp only [voxelAt] at hvx hvy hvz
    have hxx : x' = x := by exact_mod_cast hvx
    have hyy : y' = y := by exact_mod_cast hvy
    have hzz : z' = z := by exact_mod_cast hvz
    subst hxx
    subst hyy
    subst hzz
    exact hcond
  · intro hcond
    refine ⟨voxelAt (x : Int) (y : Int) (z : Int), ?_, rfl, rfl, rfl⟩
    rw [mem_intersect2DTo3D]
    exact ⟨x, y, z, hx, hy, hz, hcond, rfl⟩

/-- Claim C1: `intersect2DTo3D` equals the specified reference algorithm —
the code's first-active-column/row scans compute the smallest active
column/row indices (sentinel `-1` for an empty grid), its shifts are the
specified differences, and a voxel is emitted at `(x, y, z)` exactly when
the three (shifted, bounds-checked) cells are all true. -/
theorem C1_reconstruction_matches_reference :
    ∀ g : GridState, WF g →
      getFirstActiveColumn GRID_SIZE g.top = specMinColumn g.top ∧
      firstActiveRow GRID_SIZE g.top = specMinRow g.top ∧
      getFirstActiveColumn GRID_SIZE g.front = specMinColumn g.front ∧
      getFirstActiveColumn GRID_SIZE g.side = specMinColumn g.side ∧
      shiftXOf GRID_SIZE g = specShiftX g ∧
      shiftZOf GRID_SIZE g = specShiftZ g ∧
      (∀ x y z : Nat, x < GRID_SIZE → y < MAX_HEIGHT → z < GRID_SIZE →
        ((∃ v ∈ intersect2DTo3D GRID_SIZE MAX_HEIGHT g,
            v.x = (x : Int) ∧ v.y = (y : Int) ∧ v.z = (z : Int)) ↔
          specEmit g x y z)) := by
  intro g hwf
  refine ⟨getFirstActiveColumn_eq_spec hwf.1, firstActiveRow_eq_spec hwf.1,
    getFirstActiveColumn_eq_spec hwf.2.1, getFirstActiveColumn_eq_spec hwf.2.2,
    shiftXOf_eq_spec hwf, shiftZOf_eq_spec hwf, ?_⟩
  intro x y z hx hy hz
  rw [exists_emit_iff GRID_SIZE MAX_HEIGHT g x y z hx hy hz]
  rw [intersectCond_true_iff]
  unfold specEmit
  rw [show shiftXOf GRID_SIZE g = shiftXOf 5 g from rfl, shiftXOf_eq_spec hwf,
    show shiftZOf GRID_SIZE g = shiftZOf 5 g from rfl, shiftZOf_eq_spec hwf]

/-- Witness for `C1_reconstruction_matches_reference`: applied to the
projection of the single voxel `(2,0,2)`, a wellformed grid triple; its
shift agrees with the reference shift. -/
theorem C1_reconstruction_matches_reference_witness :
    shiftXOf GRID_SIZE (project3DTo2D 5 5 [voxelAt 2 0 2]) =
      specShiftX (project3DTo2D 5 5 [voxelAt 2 0 2]) :=
  (C1_reconstruction_matches_reference (project3DTo2D 5 5 [voxelAt 2 0 2])
    (by decide)).2.2.2.2.1

end VoxelCube
